import Mathlib

/-!
Inventory page (`src/pages/Items.js`), theme mode provider
(`src/context/ThemeModeContext.js`) and login carousel (`src/pages/Login.js`):
state engines and their properties.

A shallow embedding of the state handled by the `Items` component: the
collection of items, the add/edit form, and the handlers `handleSave`,
`handleDelete`, `handleBulkDelete`, together with the derived list
`filteredItems`; and of `ThemeModeProvider`: the preference, the system mode,
the `localStorage` entry, `setMode`, `toggleMode` and the memo `actualMode`;
and of `HeroCarousel`: the page counter and the slide it selects.

Conventions of the embedding.

* A React state cell and its setter become a field of `Items.State`; a handler
  becomes a function `State → State`.  `window.confirm` becomes a Boolean
  argument (the user's answer).
* JavaScript numbers that hold integers (`id`, `stock`) are `Nat`/`Int`; the
  result of `parseInt` is `Option Int`, with `none` for `NaN`.  Binary64
  rounding of integers beyond `2^53` is outside the model.
* `price` is a `JS.Number` whose finite values are exact rationals.
* Text is a Lean `String`, a sequence of Unicode code points; `toLowerCase`
  follows the case tables of the Unicode Character Database.
-/

namespace JS

/-- Code points of the ECMAScript `WhiteSpace` and `LineTerminator` productions,
the ones `TrimString` removes. -/
def isWhiteSpace (c : Char) : Bool :=
  let n := c.toNat
  n == 0x09 || n == 0x0A || n == 0x0B || n == 0x0C || n == 0x0D || n == 0x20 ||
  n == 0xA0 || n == 0x1680 || (0x2000 ≤ n && n ≤ 0x200A) || n == 0x2028 ||
  n == 0x2029 || n == 0x202F || n == 0x205F || n == 0x3000 || n == 0xFEFF

/-- `TrimString(s, start)`: drop leading white space. -/
def trimStart (cs : List Char) : List Char :=
  cs.dropWhile isWhiteSpace

/-- Value of a character read as a digit in radix up to 36. -/
def digitValue (c : Char) : Option Nat :=
  let n := c.toNat
  if 48 ≤ n ∧ n ≤ 57 then some (n - 48)
  else if 97 ≤ n ∧ n ≤ 122 then some (n - 87)
  else if 65 ≤ n ∧ n ≤ 90 then some (n - 55)
  else none

/-- Whether `c` is a digit of radix `R`. -/
def isRadixDigit (R : Nat) (c : Char) : Bool :=
  match digitValue c with
  | some d => decide (d < R)
  | none => false

/-- The integer written by a run of radix-`R` digits. -/
def digitsToNat (R : Nat) (ds : List Char) : Nat :=
  ds.foldl (fun acc c => acc * R + (digitValue c).getD 0) 0

/-- The global `parseInt(string)` called without a radix: leading white space is
skipped, one sign is read, a `0x`/`0X` marker selects radix 16 (radix 10
otherwise), and the longest run of digits is converted.  `none` stands for
`NaN` (no digit could be read).  The value is the integer the digits write; the
source holds its rounding to binary64, which differs from it beyond `2^53` and
is `Infinity` for more than 308 digits. -/
def parseInt (input : String) : Option Int :=
  let S := trimStart input.toList
  let sign : Int := if S.head? = some '-' then -1 else 1
  let S := if S.head? = some '+' ∨ S.head? = some '-' then S.tail else S
  let SR : List Char × Nat :=
    match S with
    | '0' :: 'x' :: rest => (rest, 16)
    | '0' :: 'X' :: rest => (rest, 16)
    | _ => (S, 10)
  let Z := SR.1.takeWhile (isRadixDigit SR.2)
  if Z.isEmpty then none
  else some (sign * (digitsToNat SR.2 Z : Nat))

/-- A JavaScript number as far as the price field needs it: `NaN`, the two
infinities, or a finite value kept as an exact rational. -/
inductive Number where
  | nan
  | infinity (negative : Bool)
  | finite (q : ℚ)
  deriving DecidableEq

/-- The `ExponentPart` of a `StrDecimalLiteral` at the head of `cs`: its value,
or `0` when `cs` does not start with a complete exponent part. -/
def exponentPart (cs : List Char) : Int :=
  match cs with
  | c :: rest =>
    if c = 'e' ∨ c = 'E' then
      let neg := rest.head? = some '-'
      let ds := if rest.head? = some '+' ∨ rest.head? = some '-' then rest.tail else rest
      let digits := ds.takeWhile Char.isDigit
      if digits.isEmpty then 0
      else if neg then -(digitsToNat 10 digits : Int) else (digitsToNat 10 digits : Int)
    else 0
  | [] => 0

/-- The global `parseFloat(string)`: the value of the longest prefix, after
leading white space, that is a `StrDecimalLiteral`; `NaN` when there is none.
The finite value is the decimal the text writes; the source holds its rounding
to binary64, which overflows to `Infinity` and underflows to zero. -/
def parseFloat (input : String) : Number :=
  let S := trimStart input.toList
  let neg := S.head? = some '-'
  let S := if S.head? = some '+' ∨ S.head? = some '-' then S.tail else S
  if "Infinity".toList.isPrefixOf S then Number.infinity (decide neg)
  else
    let ip := S.takeWhile Char.isDigit
    let r1 := S.dropWhile Char.isDigit
    let fr : List Char × List Char :=
      match r1 with
      | '.' :: r =>
        let f := r.takeWhile Char.isDigit
        if ip.isEmpty && f.isEmpty then ([], r1) else (f, r.dropWhile Char.isDigit)
      | _ => ([], r1)
    if ip.isEmpty && fr.1.isEmpty then Number.nan
    else
      let m : ℚ := (digitsToNat 10 (ip ++ fr.1) : ℚ)
      let e : Int := exponentPart fr.2 - (fr.1.length : Int)
      Number.finite ((if neg then -m else m) * (10 : ℚ) ^ e)

/-- The expression `x || 0` for a number `x`: `NaN` and zero are falsy. -/
def Number.orZero (x : Number) : Number :=
  match x with
  | Number.nan => Number.finite 0
  | Number.finite q => if q = 0 then Number.finite 0 else Number.finite q
  | Number.infinity b => Number.infinity b

/-- The expression `x || 0` for the result of `parseInt`. -/
def orZero (x : Option Int) : Int :=
  match x with
  | some n => if n = 0 then 0 else n
  | none => 0

/-- The comparison `x === k` for the result of `parseInt`; `NaN` equals nothing. -/
def strictEquals (x : Option Int) (k : Int) : Bool :=
  match x with
  | some n => decide (n = k)
  | none => false

/-- The comparison `x < k` for the result of `parseInt`; false on `NaN`. -/
def lessThan (x : Option Int) (k : Int) : Bool :=
  match x with
  | some n => decide (n < k)
  | none => false

/-- `Math.max(...xs)` over non-negative integers at a call that lists `0` among
its arguments, as `handleSave` does: the `-Infinity` seed is then never the
result, and the fold starts from `0`. -/
def mathMax (xs : List Nat) : Nat :=
  xs.foldl max 0

/-- The simple lowercase mappings of the Unicode Character Database (version
14.0), as ranges `(lo, hi, stride, delta)`: a code point `c` with `lo ≤ c ≤ hi`
and `(c - lo) % stride = 0` has the lowercase form `c + delta`. -/
def lowercaseRanges : List (Nat × Nat × Nat × Int) :=
  [
    (65, 90, 1, 32), (192, 214, 1, 32), (216, 222, 1, 32), (256, 302, 2, 1), (306, 310, 2, 1),
    (313, 327, 2, 1), (330, 374, 2, 1), (376, 376, 1, -121), (377, 381, 2, 1),
    (385, 385, 1, 210), (386, 388, 2, 1), (390, 390, 1, 206), (391, 391, 1, 1),
    (393, 394, 1, 205), (395, 395, 1, 1), (398, 398, 1, 79), (399, 399, 1, 202),
    (400, 400, 1, 203), (401, 401, 1, 1), (403, 403, 1, 205), (404, 404, 1, 207),
    (406, 406, 1, 211), (407, 407, 1, 209), (408, 408, 1, 1), (412, 412, 1, 211),
    (413, 413, 1, 213), (415, 415, 1, 214), (416, 420, 2, 1), (422, 422, 1, 218),
    (423, 423, 1, 1), (425, 425, 1, 218), (428, 428, 1, 1), (430, 430, 1, 218),
    (431, 431, 1, 1), (433, 434, 1, 217), (435, 437, 2, 1), (439, 439, 1, 219),
    (440, 440, 1, 1), (444, 444, 1, 1), (452, 452, 1, 2), (453, 453, 1, 1), (455, 455, 1, 2),
    (456, 456, 1, 1), (458, 458, 1, 2), (459, 475, 2, 1), (478, 494, 2, 1), (497, 497, 1, 2),
    (498, 500, 2, 1), (502, 502, 1, -97), (503, 503, 1, -56), (504, 542, 2, 1),
    (544, 544, 1, -130), (546, 562, 2, 1), (570, 570, 1, 10795), (571, 571, 1, 1),
    (573, 573, 1, -163), (574, 574, 1, 10792), (577, 577, 1, 1), (579, 579, 1, -195),
    (580, 580, 1, 69), (581, 581, 1, 71), (582, 590, 2, 1), (880, 882, 2, 1), (886, 886, 1, 1),
    (895, 895, 1, 116), (902, 902, 1, 38), (904, 906, 1, 37), (908, 908, 1, 64),
    (910, 911, 1, 63), (913, 929, 1, 32), (931, 939, 1, 32), (975, 975, 1, 8),
    (984, 1006, 2, 1), (1012, 1012, 1, -60), (1015, 1015, 1, 1), (1017, 1017, 1, -7),
    (1018, 1018, 1, 1), (1021, 1023, 1, -130), (1024, 1039, 1, 80), (1040, 1071, 1, 32),
    (1120, 1152, 2, 1), (1162, 1214, 2, 1), (1216, 1216, 1, 15), (1217, 1229, 2, 1),
    (1232, 1326, 2, 1), (1329, 1366, 1, 48), (4256, 4293, 1, 7264), (4295, 4295, 1, 7264),
    (4301, 4301, 1, 7264), (5024, 5103, 1, 38864), (5104, 5109, 1, 8), (7312, 7354, 1, -3008),
    (7357, 7359, 1, -3008), (7680, 7828, 2, 1), (7838, 7838, 1, -7615), (7840, 7934, 2, 1),
    (7944, 7951, 1, -8), (7960, 7965, 1, -8), (7976, 7983, 1, -8), (7992, 7999, 1, -8),
    (8008, 8013, 1, -8), (8025, 8031, 2, -8), (8040, 8047, 1, -8), (8072, 8079, 1, -8),
    (8088, 8095, 1, -8), (8104, 8111, 1, -8), (8120, 8121, 1, -8), (8122, 8123, 1, -74),
    (8124, 8124, 1, -9), (8136, 8139, 1, -86), (8140, 8140, 1, -9), (8152, 8153, 1, -8),
    (8154, 8155, 1, -100), (8168, 8169, 1, -8), (8170, 8171, 1, -112), (8172, 8172, 1, -7),
    (8184, 8185, 1, -128), (8186, 8187, 1, -126), (8188, 8188, 1, -9), (8486, 8486, 1, -7517),
    (8490, 8490, 1, -8383), (8491, 8491, 1, -8262), (8498, 8498, 1, 28), (8544, 8559, 1, 16),
    (8579, 8579, 1, 1), (9398, 9423, 1, 26), (11264, 11311, 1, 48), (11360, 11360, 1, 1),
    (11362, 11362, 1, -10743), (11363, 11363, 1, -3814), (11364, 11364, 1, -10727),
    (11367, 11371, 2, 1), (11373, 11373, 1, -10780), (11374, 11374, 1, -10749),
    (11375, 11375, 1, -10783), (11376, 11376, 1, -10782), (11378, 11378, 1, 1),
    (11381, 11381, 1, 1), (11390, 11391, 1, -10815), (11392, 11490, 2, 1),
    (11499, 11501, 2, 1), (11506, 11506, 1, 1), (42560, 42604, 2, 1), (42624, 42650, 2, 1),
    (42786, 42798, 2, 1), (42802, 42862, 2, 1), (42873, 42875, 2, 1),
    (42877, 42877, 1, -35332), (42878, 42886, 2, 1), (42891, 42891, 1, 1),
    (42893, 42893, 1, -42280), (42896, 42898, 2, 1), (42902, 42920, 2, 1),
    (42922, 42922, 1, -42308), (42923, 42923, 1, -42319), (42924, 42924, 1, -42315),
    (42925, 42925, 1, -42305), (42926, 42926, 1, -42308), (42928, 42928, 1, -42258),
    (42929, 42929, 1, -42282), (42930, 42930, 1, -42261), (42931, 42931, 1, 928),
    (42932, 42946, 2, 1), (42948, 42948, 1, -48), (42949, 42949, 1, -42307),
    (42950, 42950, 1, -35384), (42951, 42953, 2, 1), (42960, 42960, 1, 1),
    (42966, 42968, 2, 1), (42997, 42997, 1, 1), (65313, 65338, 1, 32), (66560, 66599, 1, 40),
    (66736, 66771, 1, 40), (66928, 66938, 1, 39), (66940, 66954, 1, 39), (66956, 66962, 1, 39),
    (66964, 66965, 1, 39), (68736, 68786, 1, 64), (71840, 71871, 1, 32), (93760, 93791, 1, 32),
    (125184, 125217, 1, 34) ]

/-- The code points with the Unicode property `Case_Ignorable`, as ranges
`(lo, hi)`. -/
def caseIgnorableRanges : List (Nat × Nat) :=
  [
    (39, 39), (46, 46), (58, 58), (94, 94), (96, 96), (168, 168), (173, 173), (175, 175),
    (180, 180), (183, 184), (688, 879), (884, 885), (890, 890), (900, 901), (903, 903),
    (1155, 1161), (1369, 1369), (1375, 1375), (1425, 1469), (1471, 1471), (1473, 1474),
    (1476, 1477), (1479, 1479), (1524, 1524), (1536, 1541), (1552, 1562), (1564, 1564),
    (1600, 1600), (1611, 1631), (1648, 1648), (1750, 1757), (1759, 1768), (1770, 1773),
    (1807, 1807), (1809, 1809), (1840, 1866), (1958, 1968), (2027, 2037), (2042, 2042),
    (2045, 2045), (2070, 2093), (2137, 2139), (2184, 2184), (2192, 2193), (2200, 2207),
    (2249, 2306), (2362, 2362), (2364, 2364), (2369, 2376), (2381, 2381), (2385, 2391),
    (2402, 2403), (2417, 2417), (2433, 2433), (2492, 2492), (2497, 2500), (2509, 2509),
    (2530, 2531), (2558, 2558), (2561, 2562), (2620, 2620), (2625, 2626), (2631, 2632),
    (2635, 2637), (2641, 2641), (2672, 2673), (2677, 2677), (2689, 2690), (2748, 2748),
    (2753, 2757), (2759, 2760), (2765, 2765), (2786, 2787), (2810, 2815), (2817, 2817),
    (2876, 2876), (2879, 2879), (2881, 2884), (2893, 2893), (2901, 2902), (2914, 2915),
    (2946, 2946), (3008, 3008), (3021, 3021), (3072, 3072), (3076, 3076), (3132, 3132),
    (3134, 3136), (3142, 3144), (3146, 3149), (3157, 3158), (3170, 3171), (3201, 3201),
    (3260, 3260), (3263, 3263), (3270, 3270), (3276, 3277), (3298, 3299), (3328, 3329),
    (3387, 3388), (3393, 3396), (3405, 3405), (3426, 3427), (3457, 3457), (3530, 3530),
    (3538, 3540), (3542, 3542), (3633, 3633), (3636, 3642), (3654, 3662), (3761, 3761),
    (3764, 3772), (3782, 3782), (3784, 3789), (3864, 3865), (3893, 3893), (3895, 3895),
    (3897, 3897), (3953, 3966), (3968, 3972), (3974, 3975), (3981, 3991), (3993, 4028),
    (4038, 4038), (4141, 4144), (4146, 4151), (4153, 4154), (4157, 4158), (4184, 4185),
    (4190, 4192), (4209, 4212), (4226, 4226), (4229, 4230), (4237, 4237), (4253, 4253),
    (4348, 4348), (4957, 4959), (5906, 5908), (5938, 5939), (5970, 5971), (6002, 6003),
    (6068, 6069), (6071, 6077), (6086, 6086), (6089, 6099), (6103, 6103), (6109, 6109),
    (6155, 6159), (6211, 6211), (6277, 6278), (6313, 6313), (6432, 6434), (6439, 6440),
    (6450, 6450), (6457, 6459), (6679, 6680), (6683, 6683), (6742, 6742), (6744, 6750),
    (6752, 6752), (6754, 6754), (6757, 6764), (6771, 6780), (6783, 6783), (6823, 6823),
    (6832, 6862), (6912, 6915), (6964, 6964), (6966, 6970), (6972, 6972), (6978, 6978),
    (7019, 7027), (7040, 7041), (7074, 7077), (7080, 7081), (7083, 7085), (7142, 7142),
    (7144, 7145), (7149, 7149), (7151, 7153), (7212, 7219), (7222, 7223), (7288, 7293),
    (7376, 7378), (7380, 7392), (7394, 7400), (7405, 7405), (7412, 7412), (7416, 7417),
    (7468, 7530), (7544, 7544), (7579, 7679), (8125, 8125), (8127, 8129), (8141, 8143),
    (8157, 8159), (8173, 8175), (8189, 8190), (8203, 8207), (8216, 8217), (8228, 8228),
    (8231, 8231), (8234, 8238), (8288, 8292), (8294, 8303), (8305, 8305), (8319, 8319),
    (8336, 8348), (8400, 8432), (11388, 11389), (11503, 11505), (11631, 11631), (11647, 11647),
    (11744, 11775), (11823, 11823), (12293, 12293), (12330, 12333), (12337, 12341),
    (12347, 12347), (12441, 12446), (12540, 12542), (40981, 40981), (42232, 42237),
    (42508, 42508), (42607, 42610), (42612, 42621), (42623, 42623), (42652, 42655),
    (42736, 42737), (42752, 42785), (42864, 42864), (42888, 42890), (42994, 42996),
    (43000, 43001), (43010, 43010), (43014, 43014), (43019, 43019), (43045, 43046),
    (43052, 43052), (43204, 43205), (43232, 43249), (43263, 43263), (43302, 43309),
    (43335, 43345), (43392, 43394), (43443, 43443), (43446, 43449), (43452, 43453),
    (43471, 43471), (43493, 43494), (43561, 43566), (43569, 43570), (43573, 43574),
    (43587, 43587), (43596, 43596), (43632, 43632), (43644, 43644), (43696, 43696),
    (43698, 43700), (43703, 43704), (43710, 43711), (43713, 43713), (43741, 43741),
    (43756, 43757), (43763, 43764), (43766, 43766), (43867, 43871), (43881, 43883),
    (44005, 44005), (44008, 44008), (44013, 44013), (64286, 64286), (64434, 64450),
    (65024, 65039), (65043, 65043), (65056, 65071), (65106, 65106), (65109, 65109),
    (65279, 65279), (65287, 65287), (65294, 65294), (65306, 65306), (65342, 65342),
    (65344, 65344), (65392, 65392), (65438, 65439), (65507, 65507), (65529, 65531),
    (66045, 66045), (66272, 66272), (66422, 66426), (67456, 67461), (67463, 67504),
    (67506, 67514), (68097, 68099), (68101, 68102), (68108, 68111), (68152, 68154),
    (68159, 68159), (68325, 68326), (68900, 68903), (69291, 69292), (69446, 69456),
    (69506, 69509), (69633, 69633), (69688, 69702), (69744, 69744), (69747, 69748),
    (69759, 69761), (69811, 69814), (69817, 69818), (69821, 69821), (69826, 69826),
    (69837, 69837), (69888, 69890), (69927, 69931), (69933, 69940), (70003, 70003),
    (70016, 70017), (70070, 70078), (70089, 70092), (70095, 70095), (70191, 70193),
    (70196, 70196), (70198, 70199), (70206, 70206), (70367, 70367), (70371, 70378),
    (70400, 70401), (70459, 70460), (70464, 70464), (70502, 70508), (70512, 70516),
    (70712, 70719), (70722, 70724), (70726, 70726), (70750, 70750), (70835, 70840),
    (70842, 70842), (70847, 70848), (70850, 70851), (71090, 71093), (71100, 71101),
    (71103, 71104), (71132, 71133), (71219, 71226), (71229, 71229), (71231, 71232),
    (71339, 71339), (71341, 71341), (71344, 71349), (71351, 71351), (71453, 71455),
    (71458, 71461), (71463, 71467), (71727, 71735), (71737, 71738), (71995, 71996),
    (71998, 71998), (72003, 72003), (72148, 72151), (72154, 72155), (72160, 72160),
    (72193, 72202), (72243, 72248), (72251, 72254), (72263, 72263), (72273, 72278),
    (72281, 72283), (72330, 72342), (72344, 72345), (72752, 72758), (72760, 72765),
    (72767, 72767), (72850, 72871), (72874, 72880), (72882, 72883), (72885, 72886),
    (73009, 73014), (73018, 73018), (73020, 73021), (73023, 73029), (73031, 73031),
    (73104, 73105), (73109, 73109), (73111, 73111), (73459, 73460), (78896, 78904),
    (92912, 92916), (92976, 92982), (92992, 92995), (94031, 94031), (94095, 94111),
    (94176, 94177), (94179, 94180), (110576, 110579), (110581, 110587), (110589, 110590),
    (113821, 113822), (113824, 113827), (118528, 118573), (118576, 118598), (119143, 119145),
    (119155, 119170), (119173, 119179), (119210, 119213), (119362, 119364), (121344, 121398),
    (121403, 121452), (121461, 121461), (121476, 121476), (121499, 121503), (121505, 121519),
    (122880, 122886), (122888, 122904), (122907, 122913), (122915, 122916), (122918, 122922),
    (123184, 123197), (123566, 123566), (123628, 123631), (125136, 125142), (125252, 125259),
    (127995, 127999), (917505, 917505), (917536, 917631), (917760, 917999) ]

/-- The code points with the Unicode property `Cased` that are not
`Case_Ignorable`, as ranges `(lo, hi)`. -/
def casedRanges : List (Nat × Nat) :=
  [
    (65, 90), (97, 122), (170, 170), (181, 181), (186, 186), (192, 214), (216, 246),
    (248, 442), (444, 447), (452, 659), (661, 687), (880, 883), (886, 887), (891, 893),
    (895, 895), (902, 902), (904, 906), (908, 908), (910, 929), (931, 1013), (1015, 1153),
    (1162, 1327), (1329, 1366), (1376, 1416), (4256, 4293), (4295, 4295), (4301, 4301),
    (4304, 4346), (4349, 4351), (5024, 5109), (5112, 5117), (7296, 7304), (7312, 7354),
    (7357, 7359), (7424, 7467), (7531, 7543), (7545, 7578), (7680, 7957), (7960, 7965),
    (7968, 8005), (8008, 8013), (8016, 8023), (8025, 8025), (8027, 8027), (8029, 8029),
    (8031, 8061), (8064, 8116), (8118, 8124), (8126, 8126), (8130, 8132), (8134, 8140),
    (8144, 8147), (8150, 8155), (8160, 8172), (8178, 8180), (8182, 8188), (8450, 8450),
    (8455, 8455), (8458, 8467), (8469, 8469), (8473, 8477), (8484, 8484), (8486, 8486),
    (8488, 8488), (8490, 8493), (8495, 8500), (8505, 8505), (8508, 8511), (8517, 8521),
    (8526, 8526), (8544, 8575), (8579, 8580), (9398, 9449), (11264, 11387), (11390, 11492),
    (11499, 11502), (11506, 11507), (11520, 11557), (11559, 11559), (11565, 11565),
    (42560, 42605), (42624, 42651), (42786, 42863), (42865, 42887), (42891, 42894),
    (42896, 42954), (42960, 42961), (42963, 42963), (42965, 42969), (42997, 42998),
    (43002, 43002), (43824, 43866), (43872, 43880), (43888, 43967), (64256, 64262),
    (64275, 64279), (65313, 65338), (65345, 65370), (66560, 66639), (66736, 66771),
    (66776, 66811), (66928, 66938), (66940, 66954), (66956, 66962), (66964, 66965),
    (66967, 66977), (66979, 66993), (66995, 67001), (67003, 67004), (68736, 68786),
    (68800, 68850), (71840, 71903), (93760, 93823), (119808, 119892), (119894, 119964),
    (119966, 119967), (119970, 119970), (119973, 119974), (119977, 119980), (119982, 119993),
    (119995, 119995), (119997, 120003), (120005, 120069), (120071, 120074), (120077, 120084),
    (120086, 120092), (120094, 120121), (120123, 120126), (120128, 120132), (120134, 120134),
    (120138, 120144), (120146, 120485), (120488, 120512), (120514, 120538), (120540, 120570),
    (120572, 120596), (120598, 120628), (120630, 120654), (120656, 120686), (120688, 120712),
    (120714, 120744), (120746, 120770), (120772, 120779), (122624, 122633), (122635, 122654),
    (125184, 125251), (127280, 127305), (127312, 127337), (127344, 127369) ]

/-- Whether `n` lies in one of the ranges. -/
def inRanges (rs : List (Nat × Nat)) (n : Nat) : Bool :=
  rs.any (fun r => decide (r.1 ≤ n) && decide (n ≤ r.2))

/-- The property `Case_Ignorable`. -/
def isCaseIgnorable (c : Char) : Bool :=
  inRanges caseIgnorableRanges c.toNat

/-- The property `Cased`, read only for code points that are not
`Case_Ignorable`. -/
def isCased (c : Char) : Bool :=
  inRanges casedRanges c.toNat

/-- The simple lowercase form of one code point. -/
def lowerCodePoint (c : Char) : Char :=
  match lowercaseRanges.find? (fun r =>
      decide (r.1 ≤ c.toNat) && decide (c.toNat ≤ r.2.1) && (c.toNat - r.1) % r.2.2.1 == 0) with
  | some r => Char.ofNat (Int.toNat ((c.toNat : Int) + r.2.2.2))
  | none => c

/-- The lowercase mapping of one code point out of context: the simple form,
but for U+0130, which `SpecialCasing` maps to the two code points U+0069
U+0307. -/
def lowerMapping (c : Char) : List Char :=
  if c.toNat = 304 then [Char.ofNat 105, Char.ofNat 775] else [lowerCodePoint c]

/-- Whether the nearest code point of `cs` that is not case-ignorable is
cased. -/
def nextIsCased (cs : List Char) : Bool :=
  match cs with
  | [] => false
  | c :: rest => if isCaseIgnorable c then nextIsCased rest else isCased c

/-- The condition `Final_Sigma` of `SpecialCasing`; `before` lists the code
points before the sigma, the nearest first, and `after` those behind it. -/
def isFinalSigma (before after : List Char) : Bool :=
  nextIsCased before && !nextIsCased after

/-- The lowercase conversion of the code points `cs` that follow `before`
(nearest first): U+03A3 becomes U+03C2 in the `Final_Sigma` context and U+03C3
otherwise, and every other code point becomes its lowercase mapping. -/
def toLowerChars (before cs : List Char) : List Char :=
  match cs with
  | [] => []
  | c :: rest =>
    (if c.toNat = 931 then [if isFinalSigma before rest then Char.ofNat 962 else Char.ofNat 963]
     else lowerMapping c) ++ toLowerChars (c :: before) rest

/-- `String.prototype.toLowerCase`: the locale-independent lowercase conversion
of the Unicode Default Case Conversion, code point by code point. -/
def toLowerCase (s : String) : String :=
  String.mk (toLowerChars [] s.toList)

/-- Whether `needle` occurs in `hay` as a contiguous run. -/
def includesChars (hay needle : List Char) : Bool :=
  match hay with
  | [] => needle.isEmpty
  | c :: rest => needle.isPrefixOf (c :: rest) || includesChars rest needle

/-- `String.prototype.includes(searchString)` from position 0. -/
def includes (s searchString : String) : Bool :=
  includesChars s.toList searchString.toList

/-- `Array.prototype.indexOf(x)` on an array of strings: the first position of
`x`, or `-1` when `x` is not an element. -/
def indexOf (xs : List String) (x : String) : Int :=
  if x ∈ xs then (xs.indexOf x : Nat) else -1

/-- `Array.prototype.includes(x)` on an array of strings, for a value read from
`localStorage`: `none` is the `null` of an absent key, which no string equals. -/
def arrayIncludes (xs : List String) (x : Option String) : Bool :=
  match x with
  | some v => xs.contains v
  | none => false

/-- The remainder operator `a % b` on integers: the result takes the sign of
the dividend. -/
def rem (a b : Int) : Int :=
  Int.tmod a b

end JS

namespace Items

/-- One row of the inventory. -/
structure Item where
  id : Nat
  name : String
  category : String
  price : JS.Number
  stock : Int
  status : String
  deriving DecidableEq

/-- The `formData` cell: the four texts of the add/edit dialog.  `handleSave`
reads `price` and `stock` through `parseFloat` and `parseInt`, which take the
text of their argument. -/
structure FormData where
  name : String
  category : String
  price : String
  stock : String
  deriving DecidableEq

/-- The state cells of the `Items` component. -/
structure State where
  items : List Item
  dialogOpen : Bool
  editingItem : Option Item
  formData : FormData
  searchQuery : String
  viewMode : String
  deriving DecidableEq

/-- Sample data the component starts from. -/
def initialItems : List Item :=
  [ { id := 1, name := "Drone Model X1", category := "Electronics",
      price := JS.Number.finite (29999 / 100), stock := 45, status := "active" },
    { id := 2, name := "Propeller Set", category := "Parts",
      price := JS.Number.finite (2499 / 100), stock := 120, status := "active" },
    { id := 3, name := "Battery Pack", category := "Power",
      price := JS.Number.finite (8999 / 100), stock := 30, status := "low" },
    { id := 4, name := "Camera Module", category := "Electronics",
      price := JS.Number.finite (19999 / 100), stock := 0, status := "out" },
    { id := 5, name := "Controller", category := "Accessories",
      price := JS.Number.finite (14999 / 100), stock := 25, status := "active" } ]

/-- The initial values of the `useState` cells. -/
def initialState : State :=
  { items := initialItems, dialogOpen := false, editingItem := none,
    formData := { name := "", category := "", price := "", stock := "" },
    searchQuery := "", viewMode := "table" }

/-- The derived list `filteredItems`. -/
def filteredItems (s : State) : List Item :=
  s.items.filter (fun item =>
    JS.includes (JS.toLowerCase item.name) (JS.toLowerCase s.searchQuery) ||
    JS.includes (JS.toLowerCase item.category) (JS.toLowerCase s.searchQuery))

/-- The handler `handleClose`. -/
def handleClose (s : State) : State :=
  { s with dialogOpen := false, editingItem := none }

/-- The object `newItem` built at the start of `handleSave`. -/
def newItem (s : State) : Item :=
  { id := match s.editingItem with
      | some e => e.id
      | none => JS.mathMax (s.items.map (fun i => i.id) ++ [0]) + 1
    name := s.formData.name
    category := s.formData.category
    price := (JS.parseFloat s.formData.price).orZero
    stock := JS.orZero (JS.parseInt s.formData.stock)
    status :=
      if JS.strictEquals (JS.parseInt s.formData.stock) 0 then "out"
      else if JS.lessThan (JS.parseInt s.formData.stock) 10 then "low"
      else "active" }

/-- The handler `handleSave`. -/
def handleSave (s : State) : State :=
  match s.editingItem with
  | some e =>
    handleClose
      { s with items := s.items.map (fun item => if item.id = e.id then newItem s else item) }
  | none =>
    handleClose { s with items := s.items ++ [newItem s] }

/-- The handler `handleDelete`; `confirmed` is the answer of `window.confirm`. -/
def handleDelete (s : State) (id : Nat) (confirmed : Bool) : State :=
  if confirmed then { s with items := s.items.filter (fun item => item.id ≠ id) }
  else s

/-- The handler `handleBulkDelete`; `confirmed` is the answer of
`window.confirm`, asked only when the collection is not empty. -/
def handleBulkDelete (s : State) (confirmed : Bool) : State :=
  if s.items.length = 0 then s
  else if confirmed then { s with items := [] }
  else s

/-- The form edit `setFormData(f)`. -/
def setFormData (s : State) (f : FormData) : State :=
  { s with formData := f }

/-- A run of saves: for each form content in turn, the form is filled with it
and `handleSave` runs. -/
def saveAll (s : State) (fs : List FormData) : State :=
  fs.foldl (fun st f => handleSave (setFormData st f)) s

/-- The ids of a collection, in order. -/
def ids (items : List Item) : List Nat :=
  items.map (fun i => i.id)

/-- A state in which the item being edited has an id (9) that no item of the
collection has. -/
def staleEdit : State :=
  { initialState with
    dialogOpen := true
    editingItem := some ⟨9, "Gimbal", "Parts", JS.Number.finite 1, 3, "low"⟩
    formData := ⟨"Gimbal", "Parts", "1", "3"⟩ }

/-- Failure kinds of the store's error taxonomy. -/
inductive StoreError where
  | NotFound
  deriving DecidableEq

/-- How a call of `handleSave` ends.  The body of the handler has no `throw`
and no early return: every call runs to its last statement and leaves the
next state. -/
def saveOutcome (s : State) : Except StoreError State :=
  Except.ok (handleSave s)

/-- How a call of `handleDelete` ends.  The body of the handler has no `throw`:
every call leaves the next state. -/
def deleteOutcome (s : State) (id : Nat) (confirmed : Bool) : Except StoreError State :=
  Except.ok (handleDelete s id confirmed)

/-- The counts of the statistics row: `items.filter(i => i.status === status).length`. -/
def countByStatus (s : State) (status : String) : Nat :=
  (s.items.filter (fun i => i.status == status)).length

/-- The state while the item of the collection with the given id is being
edited (`editingItem` is that row) and the form holds `f`. -/
def editing (s : State) (id : Nat) (f : FormData) : State :=
  { s with dialogOpen := true, editingItem := s.items.find? (fun i => i.id == id), formData := f }

/-- A store operation of a run of removes and adds. -/
inductive Op where
  | add (f : FormData)
  | remove (id : Nat)
  deriving DecidableEq

/-- One operation: an add fills the form and runs `handleSave`; a remove runs
`handleDelete` and the user confirms. -/
def applyOp (s : State) (op : Op) : State :=
  match op with
  | Op.add f => handleSave (setFormData s f)
  | Op.remove id => handleDelete s id true

/-- A run of operations, from left to right. -/
def run (s : State) (ops : List Op) : State :=
  ops.foldl applyOp s

/-- The ids of the items that the removes of a run took out of the collection,
in the order of the removes. -/
def removedIds (s : State) (ops : List Op) : List Nat :=
  match ops with
  | [] => []
  | Op.add f :: rest => removedIds (applyOp s (Op.add f)) rest
  | Op.remove id :: rest =>
    (if id ∈ ids s.items then [id] else []) ++ removedIds (applyOp s (Op.remove id)) rest

end Items

namespace ThemeMode

/-- What the provider can read from the browser: `matchMedia` is `none` when
`window` or `window.matchMedia` is missing, and otherwise holds `matches` of the
query `(prefers-color-scheme: dark)`. -/
structure Env where
  matchMedia : Option Bool
  deriving DecidableEq

/-- The cells of `ThemeModeProvider` and the `localStorage` entry `themeMode`
(`none` when the key is absent or there is no `window`). -/
structure State where
  modePreference : String
  systemMode : String
  themeMode : Option String
  deriving DecidableEq

/-- The function `getSystemPreference`. -/
def getSystemPreference (env : Env) : String :=
  match env.matchMedia with
  | some isDark => if isDark then "dark" else "light"
  | none => "dark"

/-- The function `getStoredPreference`, on the content of the `themeMode` entry. -/
def getStoredPreference (stored : Option String) : String :=
  if JS.arrayIncludes ["light", "dark", "system"] stored then stored.getD "system"
  else "system"

/-- The values of the two `useState` cells at the first render. -/
def initialState (env : Env) (stored : Option String) : State :=
  { modePreference := "system", systemMode := getSystemPreference env, themeMode := stored }

/-- The first mount effect: the stored preference is loaded. -/
def loadStoredEffect (st : State) : State :=
  { st with modePreference := getStoredPreference st.themeMode }

/-- The listener `handleChange` of the media query; `isDark` is `e.matches`. -/
def handleChange (st : State) (isDark : Bool) : State :=
  { st with systemMode := if isDark then "dark" else "light" }

/-- The second mount effect: nothing without `matchMedia`; otherwise the system
mode is set from the query (the listener is registered for later changes). -/
def systemListenerEffect (env : Env) (st : State) : State :=
  match env.matchMedia with
  | none => st
  | some isDark => { st with systemMode := if isDark then "dark" else "light" }

/-- The memo `actualMode`. -/
def actualMode (st : State) : String :=
  if st.modePreference = "system" then st.systemMode else st.modePreference

/-- The function `setMode`. -/
def setMode (st : State) (newMode : String) : State :=
  { st with modePreference := newMode, themeMode := some newMode }

/-- The array `modes` of `toggleMode`. -/
def modes : List String := ["system", "light", "dark"]

/-- The function `toggleMode`.  The index `nextIndex` is always a position of
`modes` (a remainder by 3 of a number from 0 to 3), so the default of the read
is never used. -/
def toggleMode (st : State) : State :=
  let currentIndex := JS.indexOf modes st.modePreference
  let nextIndex := JS.rem (currentIndex + 1) (modes.length : Int)
  setMode st (modes.getD nextIndex.toNat "undefined")

/-- What can happen to the provider after its first render. -/
inductive Event where
  | loadStored
  | listen (env : Env)
  | setMode (newMode : String)
  | toggleMode
  | change (isDark : Bool)
  deriving DecidableEq

/-- The effect of one event. -/
def step (st : State) (e : Event) : State :=
  match e with
  | Event.loadStored => loadStoredEffect st
  | Event.listen env => systemListenerEffect env st
  | Event.setMode newMode => setMode st newMode
  | Event.toggleMode => toggleMode st
  | Event.change isDark => handleChange st isDark

/-- A sequence of events, from left to right. -/
def run (st : State) (es : List Event) : State :=
  es.foldl step st

/-- Whether an event passes one of the three theme mode options where it passes
a mode: every event but a `setMode` with another value. -/
def Event.usesOption (e : Event) : Bool :=
  match e with
  | Event.setMode newMode => modes.contains newMode
  | _ => true

/-- Failure kinds of the resolver's error taxonomy. -/
inductive PreferenceError where
  | InvalidPreference
  deriving DecidableEq

/-- How a call of `setMode` ends.  The body of the function has no `throw` and
no test of its argument: every call runs its two statements and leaves the
next state. -/
def setModeOutcome (st : State) (newMode : String) : Except PreferenceError State :=
  Except.ok (setMode st newMode)

end ThemeMode

namespace JS

/-- `Math.abs` on integers. -/
def abs (a : Int) : Int :=
  if a < 0 then -a else a

/-- The text `Number::toString` gives for the positive decimal `N × 10^(-e)`,
`N > 0`: with `k` significant digits and the decimal point after `n` digits,
plain digits when `k ≤ n ≤ 21`, a point inside when `0 < n ≤ 21`, a leading
`0.` when `-6 < n ≤ 0`, and exponent notation otherwise. -/
def formatDecimal (N e : Nat) : List Char :=
  let ds := Nat.toDigits 10 N
  let sig := (ds.reverse.dropWhile (fun c => c == '0')).reverse
  let k : Int := (sig.length : Int)
  let n : Int := (ds.length : Int) - (e : Int)
  if k ≤ n ∧ n ≤ 21 then sig ++ List.replicate (n - k).toNat '0'
  else if 0 < n ∧ n ≤ 21 then sig.take n.toNat ++ '.' :: sig.drop n.toNat
  else if -6 < n ∧ n ≤ 0 then '0' :: '.' :: (List.replicate (-n).toNat '0' ++ sig)
  else
    let x := n - 1
    let expo := (if x < 0 then '-' else '+') :: Nat.toDigits 10 x.natAbs
    match sig with
    | [] => []
    | [d] => d :: 'e' :: expo
    | d :: rest => d :: '.' :: (rest ++ 'e' :: expo)

/-- `ToString` of a number that holds an integer. -/
def intToString (n : Int) : String :=
  if n = 0 then "0"
  else String.mk ((if n < 0 then ['-'] else []) ++ formatDecimal n.natAbs 0)

/-- The least `e`, searched from `e` upwards in at most `fuel` further steps,
for which `den` divides `10 ^ e`. -/
def decimalExponent (den : Nat) (fuel : Nat) (e : Nat) : Option Nat :=
  match fuel with
  | 0 => if 10 ^ e % den = 0 then some e else none
  | fuel + 1 => if 10 ^ e % den = 0 then some e else decimalExponent den fuel (e + 1)

/-- `ToString` of a number of the price model.  A finite value prints as its
decimal expansion; a rational with no finite decimal expansion stands for no
JavaScript number and prints as `NaN`. -/
def Number.toString (x : Number) : String :=
  match x with
  | Number.nan => "NaN"
  | Number.infinity negative => if negative then "-Infinity" else "Infinity"
  | Number.finite q =>
    if q = 0 then "0"
    else
      match decimalExponent q.den q.den 0 with
      | some e =>
        String.mk ((if q < 0 then ['-'] else []) ++
          formatDecimal (q.num.natAbs * (10 ^ e / q.den)) e)
      | none => "NaN"

end JS

namespace Items

/-- The handler `handleOpen`, with `none` for a call without an item.  The form
cells `price` and `stock` receive the numbers of the item; `handleSave` and the
text fields read them through `ToString`, and the embedding stores that text. -/
def handleOpen (s : State) (item : Option Item) : State :=
  match item with
  | some it =>
    { s with
      editingItem := some it
      formData := ⟨it.name, it.category, JS.Number.toString it.price, JS.intToString it.stock⟩
      dialogOpen := true }
  | none =>
    { s with
      editingItem := none
      formData := ⟨"", "", "", ""⟩
      dialogOpen := true }

/-- The handler `handleEdit`. -/
def handleEdit (s : State) (item : Item) : State :=
  handleOpen s (some item)

/-- The sample data after one add whose stock text is 1 followed by 21 zeros. -/
def bulkStock : State :=
  handleSave (setFormData (handleOpen initialState none)
    ⟨"Washer", "Parts", "2.5", "1000000000000000000000"⟩)

end Items

namespace Login

/-- One entry of `carouselSlides`. -/
structure Slide where
  emoji : String
  title : String
  subtitle : String
  gradient : String
  deriving DecidableEq

/-- The array `carouselSlides`. -/
def carouselSlides : List Slide :=
  [ { emoji := "🚀", title := "Lightning Fast",
      subtitle := "Built with modern tech stack for blazing performance",
      gradient := "linear-gradient(135deg, #6366f1, #8b5cf6)" },
    { emoji := "🎨", title := "Beautiful UI",
      subtitle := "Stunning animations and glassmorphism design",
      gradient := "linear-gradient(135deg, #ec4899, #f43f5e)" },
    { emoji := "🌙", title := "Dark & Light",
      subtitle := "Automatic theme detection with smooth transitions",
      gradient := "linear-gradient(135deg, #06b6d4, #3b82f6)" },
    { emoji := "📱", title := "Fully Responsive",
      subtitle := "Perfect experience on any device size",
      gradient := "linear-gradient(135deg, #10b981, #14b8a6)" } ]

/-- The cells of `HeroCarousel`. -/
structure State where
  page : Int
  direction : Int
  isHovered : Bool
  deriving DecidableEq

/-- The first render of `HeroCarousel`. -/
def initialState : State :=
  { page := 0, direction := 0, isHovered := false }

/-- The value `slideIndex` computed at each render. -/
def slideIndex (st : State) : Int :=
  JS.abs (JS.rem st.page (carouselSlides.length : Int))

/-- The read `carouselSlides[slideIndex]`; `none` is `undefined`. -/
def slide (st : State) : Option Slide :=
  if 0 ≤ slideIndex st then carouselSlides[(slideIndex st).toNat]? else none

/-- What can happen to the carousel: the 4-second timer fires, a dot is
clicked, or one of the two arrows is clicked. -/
inductive Event where
  | tick
  | dot (index : Nat)
  | previous
  | next
  | hover (isHovered : Bool)
  deriving DecidableEq

/-- The effect of one event.  The timer is armed only while the carousel is
not hovered; a dot exists for each position of `carouselSlides`. -/
def step (st : State) (e : Event) : State :=
  match e with
  | Event.tick => if st.isHovered then st else { st with page := st.page + 1, direction := 1 }
  | Event.dot index =>
    if index < carouselSlides.length then
      { st with page := (index : Int), direction := if (index : Int) > slideIndex st then 1 else -1 }
    else st
  | Event.previous => { st with page := st.page - 1, direction := -1 }
  | Event.next => { st with page := st.page + 1, direction := 1 }
  | Event.hover isHovered => { st with isHovered := isHovered }

/-- A sequence of events, from left to right. -/
def run (st : State) (es : List Event) : State :=
  es.foldl step st

end Login

namespace JS

theorem foldl_max_spec (xs : List Nat) (a : Nat) :
    a ≤ xs.foldl max a ∧ (∀ x ∈ xs, x ≤ xs.foldl max a) ∧
      (xs.foldl max a = a ∨ xs.foldl max a ∈ xs) := by
  induction xs generalizing a with
  | nil => simp
  | cons y ys ih =>
    obtain ⟨h1, h2, h3⟩ := ih (max a y)
    refine ⟨le_trans (le_max_left a y) h1, ?_, ?_⟩
    · intro x hx
      rcases List.mem_cons.mp hx with rfl | hx
      · exact le_trans (le_max_right a x) h1
      · exact h2 x hx
    · simp only [List.foldl_cons, List.mem_cons]
      rcases h3 with h3 | h3
      · rcases max_choice a y with h | h
        · left; rw [h3, h]
        · right; left; rw [h3, h]
      · right; right; exact h3

theorem mathMax_append_zero (xs : List Nat) : mathMax (xs ++ [0]) = mathMax xs := by
  simp [mathMax, List.foldl_append]

theorem le_mathMax {xs : List Nat} {x : Nat} (h : x ∈ xs) : x ≤ mathMax xs :=
  (foldl_max_spec xs 0).2.1 x h

theorem mathMax_nil : mathMax [] = 0 := rfl

theorem mathMax_mem {xs : List Nat} (h : xs ≠ []) : mathMax xs ∈ xs := by
  rcases (foldl_max_spec xs 0).2.2 with h0 | hm
  · cases xs with
    | nil => exact absurd rfl h
    | cons y ys =>
      have hy : y ≤ mathMax (y :: ys) := le_mathMax (List.mem_cons_self y ys)
      have h0m : mathMax (y :: ys) = 0 := h0
      have : y = 0 := by omega
      rw [h0m, this]
      exact List.mem_cons_self 0 ys
  · exact hm

theorem includesChars_iff (hay needle : List Char) :
    includesChars hay needle = true ↔ needle <:+: hay := by
  induction hay with
  | nil => simp [includesChars, List.infix_nil]
  | cons c rest ih =>
    rw [includesChars, Bool.or_eq_true, ih, List.infix_cons_iff, List.isPrefixOf_iff_prefix]

theorem includesChars_nil (hay : List Char) : includesChars hay [] = true :=
  (includesChars_iff hay []).mpr List.nil_infix

theorem includes_iff (s t : String) : includes s t = true ↔ t.toList <:+: s.toList :=
  includesChars_iff s.toList t.toList

theorem toLowerCase_empty : toLowerCase "" = "" := by decide

theorem includes_empty (s : String) : includes s (toLowerCase "") = true := by
  rw [toLowerCase_empty]
  exact includesChars_nil s.toList

/-! ### Lower-casing and the case of ASCII letters -/

theorem lower_letter_mem (c : Char) (h : 97 ≤ c.toNat ∧ c.toNat ≤ 122) :
    c ∈ "abcdefghijklmnopqrstuvwxyz".toList := by
  have hc : c = Char.ofNat c.toNat := (Char.ofNat_toNat c).symm
  obtain ⟨h1, h2⟩ := h
  generalize c.toNat = n at h1 h2 hc
  subst hc
  interval_cases n <;> decide

theorem upper_letter_mem (c : Char) (h : 65 ≤ c.toNat ∧ c.toNat ≤ 90) :
    c ∈ "ABCDEFGHIJKLMNOPQRSTUVWXYZ".toList := by
  have hc : c = Char.ofNat c.toNat := (Char.ofNat_toNat c).symm
  obtain ⟨h1, h2⟩ := h
  generalize c.toNat = n at h1 h2 hc
  subst hc
  interval_cases n <;> decide

set_option maxRecDepth 8000 in
theorem toUpper_letter_facts : ∀ c ∈ "abcdefghijklmnopqrstuvwxyz".toList,
    isCaseIgnorable c.toUpper = isCaseIgnorable c ∧ isCased c.toUpper = isCased c ∧
    c.toUpper.toNat ≠ 931 ∧ c.toNat ≠ 931 ∧ lowerMapping c.toUpper = lowerMapping c := by
  decide

set_option maxRecDepth 8000 in
theorem toLower_letter_facts : ∀ c ∈ "ABCDEFGHIJKLMNOPQRSTUVWXYZ".toList,
    isCaseIgnorable c.toLower = isCaseIgnorable c ∧ isCased c.toLower = isCased c ∧
    c.toLower.toNat ≠ 931 ∧ c.toNat ≠ 931 ∧ lowerMapping c.toLower = lowerMapping c := by
  decide

theorem toUpper_facts (c : Char) :
    isCaseIgnorable c.toUpper = isCaseIgnorable c ∧ isCased c.toUpper = isCased c ∧
    (c.toUpper.toNat = 931 ↔ c.toNat = 931) ∧ lowerMapping c.toUpper = lowerMapping c := by
  by_cases h : 97 ≤ c.toNat ∧ c.toNat ≤ 122
  · obtain ⟨h1, h2, h3, h4, h5⟩ := toUpper_letter_facts c (lower_letter_mem c h)
    exact ⟨h1, h2, ⟨fun x => absurd x h3, fun x => absurd x h4⟩, h5⟩
  · have hu : c.toUpper = c := by
      unfold Char.toUpper
      simp only [ge_iff_le]
      rw [if_neg h]
    rw [hu]
    exact ⟨rfl, rfl, Iff.rfl, rfl⟩

theorem toLower_facts (c : Char) :
    isCaseIgnorable c.toLower = isCaseIgnorable c ∧ isCased c.toLower = isCased c ∧
    (c.toLower.toNat = 931 ↔ c.toNat = 931) ∧ lowerMapping c.toLower = lowerMapping c := by
  by_cases h : 65 ≤ c.toNat ∧ c.toNat ≤ 90
  · obtain ⟨h1, h2, h3, h4, h5⟩ := toLower_letter_facts c (upper_letter_mem c h)
    exact ⟨h1, h2, ⟨fun x => absurd x h3, fun x => absurd x h4⟩, h5⟩
  · have hu : c.toLower = c := by
      unfold Char.toLower
      simp only [ge_iff_le]
      rw [if_neg h]
    rw [hu]
    exact ⟨rfl, rfl, Iff.rfl, rfl⟩

theorem nextIsCased_map (f : Char → Char)
    (hf : ∀ c, isCaseIgnorable (f c) = isCaseIgnorable c ∧ isCased (f c) = isCased c)
    (cs : List Char) : nextIsCased (cs.map f) = nextIsCased cs := by
  induction cs with
  | nil => rfl
  | cons c rest ih =>
    simp only [List.map_cons, nextIsCased, (hf c).1, (hf c).2, ih]

theorem toLowerChars_map (f : Char → Char)
    (hf : ∀ c, isCaseIgnorable (f c) = isCaseIgnorable c ∧ isCased (f c) = isCased c ∧
      ((f c).toNat = 931 ↔ c.toNat = 931) ∧ lowerMapping (f c) = lowerMapping c)
    (before cs : List Char) :
    toLowerChars (before.map f) (cs.map f) = toLowerChars before cs := by
  have hn : ∀ l : List Char, nextIsCased (l.map f) = nextIsCased l :=
    nextIsCased_map f (fun c => ⟨(hf c).1, (hf c).2.1⟩)
  induction cs generalizing before with
  | nil => rfl
  | cons c rest ih =>
    have ih2 := ih (c :: before)
    rw [List.map_cons] at ih2
    simp only [List.map_cons, toLowerChars, isFinalSigma, hn, ih2, (hf c).2.2.2]
    by_cases h : c.toNat = 931
    · rw [if_pos h, if_pos ((hf c).2.2.1.mpr h)]
    · rw [if_neg h, if_neg (fun x => h ((hf c).2.2.1.mp x))]

theorem toLowerCase_toUpper (s : String) : toLowerCase s.toUpper = toLowerCase s := by
  have h := toLowerChars_map Char.toUpper toUpper_facts [] s.toList
  simp only [List.map_nil] at h
  simp only [toLowerCase, String.toUpper, String.map_eq, String.toList]
  exact congrArg String.mk h

theorem toLowerCase_toLower (s : String) : toLowerCase s.toLower = toLowerCase s := by
  have h := toLowerChars_map Char.toLower toLower_facts [] s.toList
  simp only [List.map_nil] at h
  simp only [toLowerCase, String.toLower, String.map_eq, String.toList]
  exact congrArg String.mk h

end JS

namespace Items

/-! ### Shape of the collection after `handleSave` -/

theorem handleSave_items_add (s : State) (h : s.editingItem = none) :
    (handleSave s).items = s.items ++ [newItem s] := by
  simp [handleSave, h, handleClose]

theorem handleSave_items_update (s : State) (e : Item) (h : s.editingItem = some e) :
    (handleSave s).items = s.items.map (fun item => if item.id = e.id then newItem s else item) := by
  simp [handleSave, h, handleClose]

theorem handleSave_editingItem (s : State) : (handleSave s).editingItem = none := by
  unfold handleSave
  cases s.editingItem <;> rfl

theorem handleSave_mem (s : State) (x : Item) (hx : x ∈ (handleSave s).items) :
    x ∈ s.items ∨ x = newItem s := by
  cases h : s.editingItem with
  | none =>
    rw [handleSave_items_add s h] at hx
    simpa using hx
  | some e =>
    rw [handleSave_items_update s e h, List.mem_map] at hx
    obtain ⟨y, hy, rfl⟩ := hx
    split
    · exact Or.inr rfl
    · exact Or.inl hy

theorem newItem_id_add (s : State) (h : s.editingItem = none) :
    (newItem s).id = JS.mathMax (ids s.items) + 1 := by
  simp [newItem, h, JS.mathMax_append_zero, ids]

theorem newItem_id_update (s : State) (e : Item) (h : s.editingItem = some e) :
    (newItem s).id = e.id := by
  simp [newItem, h]

theorem newItem_id_gt (s : State) (h : s.editingItem = none) (i : Item) (hi : i ∈ s.items) :
    i.id < (newItem s).id := by
  rw [newItem_id_add s h]
  have : i.id ≤ JS.mathMax (ids s.items) := JS.le_mathMax (List.mem_map_of_mem _ hi)
  omega

theorem ids_handleSave_update (s : State) (e : Item) (h : s.editingItem = some e) :
    ids (handleSave s).items = ids s.items := by
  rw [handleSave_items_update s e h, ids, ids, List.map_map]
  apply List.map_congr_left
  intro a _
  simp only [Function.comp]
  split
  · rw [newItem_id_update s e h]; symm; assumption
  · rfl

end Items

namespace Items

/-! ### Status and stock of a saved item -/

/-- C1, evaluated on the code where it fails: saving with the stock field left
empty stores stock `0` together with status `active`, both when the item is
added (it is the last item of the new collection) and when the first item is
edited (it is the first item of the new collection). -/
theorem handleSave_empty_stock_active :
    ((handleSave (setFormData initialState ⟨"Gimbal", "Parts", "59.5", ""⟩)).items.getLast?.map
        (fun i => (i.stock, i.status)) = some (0, "active")) ∧
    ((handleSave { initialState with
          editingItem := initialItems.head?,
          formData := ⟨"Drone Model X1", "Electronics", "299.99", ""⟩ }).items.head?.map
        (fun i => (i.id, i.stock, i.status)) = some (1, 0, "active")) := by
  decide

/-- C2: when the stock text parses to an integer `n ≥ 0`, the item built by
`handleSave` has stock `n`, and its status is `out` exactly when `n = 0`, `low`
exactly when `0 < n < 10`, and `active` exactly when `n ≥ 10`; every item of the
saved collection is an item of the old collection or this item. -/
theorem handleSave_stock_status (s : State) (n : Int)
    (hparse : JS.parseInt s.formData.stock = some n) (hn : 0 ≤ n) :
    (newItem s).stock = n ∧
    ((newItem s).status = "out" ↔ n = 0) ∧
    ((newItem s).status = "low" ↔ 0 < n ∧ n < 10) ∧
    ((newItem s).status = "active" ↔ 10 ≤ n) ∧
    (∀ x ∈ (handleSave s).items, x ∈ s.items ∨ x = newItem s) := by
  have hstock : (newItem s).stock = n := by
    simp only [newItem, hparse, JS.orZero]
    split <;> simp_all
  have hstatus : (newItem s).status =
      if n = 0 then "out" else if n < 10 then "low" else "active" := by
    simp only [newItem, hparse, JS.strictEquals, JS.lessThan, decide_eq_true_eq]
  refine ⟨hstock, ?_, ?_, ?_, handleSave_mem s⟩
  · rw [hstatus]
    by_cases h0 : n = 0
    · simp [h0]
    · by_cases h10 : n < 10 <;> simp [h0, h10]
  · rw [hstatus]
    by_cases h0 : n = 0
    · simp [h0]
    · by_cases h10 : n < 10
      · simp only [h0, h10, if_true, if_false, true_iff, and_true]; omega
      · simp [h0, h10]
  · rw [hstatus]
    by_cases h0 : n = 0
    · simp [h0]
    · by_cases h10 : n < 10
      · simp only [h0, h10, if_true, if_false]
        constructor
        · intro h; exact absurd h (by decide)
        · intro h; omega
      · simp only [h0, h10, if_false, true_iff]; omega

theorem handleSave_stock_status_witness :
    JS.parseInt (setFormData initialState ⟨"Gimbal", "Parts", "59.5", "7"⟩).formData.stock = some 7 ∧
    (newItem (setFormData initialState ⟨"Gimbal", "Parts", "59.5", "7"⟩)).stock = 7 ∧
    ((newItem (setFormData initialState ⟨"Gimbal", "Parts", "59.5", "7"⟩)).status = "low" ↔
      (0 : Int) < 7 ∧ (7 : Int) < 10) :=
  ⟨by decide,
   (handleSave_stock_status (setFormData initialState ⟨"Gimbal", "Parts", "59.5", "7"⟩) 7
      (by decide) (by decide)).1,
   (handleSave_stock_status (setFormData initialState ⟨"Gimbal", "Parts", "59.5", "7"⟩) 7
      (by decide) (by decide)).2.2.1⟩

/-! ### Ids assigned by an add -/

/-- C3: with no item being edited, `handleSave` appends exactly one item at the
end of the collection; its id is `m + 1` where `m` is the greatest id of the
collection (`m` bounds every id and is the id of some item) or `0` for the
empty collection; and an add right after a confirmed clear leaves a single item
with id `1`. -/
theorem handleSave_add_fresh_id (s : State) (h : s.editingItem = none) :
    (∃ x m, (handleSave s).items = s.items ++ [x] ∧ x.id = m + 1 ∧
      (∀ i ∈ s.items, i.id ≤ m) ∧
      (s.items = [] → m = 0) ∧
      (s.items ≠ [] → ∃ i ∈ s.items, i.id = m)) ∧
    ids (handleSave (handleBulkDelete s true)).items = [1] := by
  constructor
  · refine ⟨newItem s, JS.mathMax (ids s.items), handleSave_items_add s h,
      newItem_id_add s h, ?_, ?_, ?_⟩
    · intro i hi
      exact JS.le_mathMax (List.mem_map_of_mem _ hi)
    · intro he
      rw [he]; rfl
    · intro hne
      have hne2 : ids s.items ≠ [] := by simpa [ids] using hne
      obtain ⟨i, hi, hid⟩ := List.mem_map.mp (JS.mathMax_mem hne2)
      exact ⟨i, hi, hid⟩
  · have hc : (handleBulkDelete s true).items = [] := by
      unfold handleBulkDelete
      split
      · exact List.length_eq_zero.mp (by assumption)
      · rfl
    have he : (handleBulkDelete s true).editingItem = none := by
      unfold handleBulkDelete
      split
      · exact h
      · exact h
    rw [handleSave_items_add _ he, hc]
    simp [ids, newItem_id_add _ he, hc, JS.mathMax_nil]

theorem handleSave_add_fresh_id_witness :
    initialState.editingItem = none ∧
    ids (handleSave (handleBulkDelete initialState true)).items = [1] :=
  ⟨rfl, (handleSave_add_fresh_id initialState rfl).2⟩

/-- C4: in a run of consecutive adds from a state with no item being edited, the
collection grows by one item per add, the ids of the added items are strictly
increasing in the order of the adds, and each of them is greater than (hence
different from) the id of every item that was in the collection before. -/
theorem saveAll_ids_increasing (s : State) (fs : List FormData) (h : s.editingItem = none) :
    ∃ added : List Item, (saveAll s fs).items = s.items ++ added ∧
      added.length = fs.length ∧
      List.Pairwise (fun a b => a < b) (ids added) ∧
      ∀ x ∈ added, ∀ i ∈ s.items, i.id < x.id := by
  induction fs generalizing s with
  | nil => exact ⟨[], by simp [saveAll], rfl, by simp [ids], by simp⟩
  | cons f fs ih =>
    have h1 : (setFormData s f).editingItem = none := h
    obtain ⟨added, e1, e2, e3, e4⟩ :=
      ih (handleSave (setFormData s f)) (handleSave_editingItem _)
    have hit : (handleSave (setFormData s f)).items = s.items ++ [newItem (setFormData s f)] :=
      handleSave_items_add _ h1
    refine ⟨newItem (setFormData s f) :: added, ?_, ?_, ?_, ?_⟩
    · show (saveAll (handleSave (setFormData s f)) fs).items = _
      rw [e1, hit]
      simp
    · simp [e2]
    · simp only [ids, List.map_cons, List.pairwise_cons]
      refine ⟨?_, e3⟩
      intro b hb
      obtain ⟨y, hy, rfl⟩ := List.mem_map.mp hb
      exact e4 y hy _ (by rw [hit]; simp)
    · intro x hx i hi
      rcases List.mem_cons.mp hx with rfl | hx
      · exact newItem_id_gt _ h1 i hi
      · exact e4 x hx i (by rw [hit]; simp [hi])

theorem saveAll_ids_increasing_witness :
    initialState.editingItem = none ∧
    ∃ added : List Item,
      (saveAll initialState [⟨"Gimbal", "Parts", "59.5", "7"⟩, ⟨"Frame", "Parts", "", ""⟩]).items
        = initialState.items ++ added ∧
      added.length = 2 ∧
      List.Pairwise (fun a b => a < b) (ids added) ∧
      ∀ x ∈ added, ∀ i ∈ initialState.items, i.id < x.id :=
  ⟨rfl, saveAll_ids_increasing initialState
    [⟨"Gimbal", "Parts", "59.5", "7"⟩, ⟨"Frame", "Parts", "", ""⟩] rfl⟩

/-- C5: pairwise distinct ids are preserved by `handleSave` (both as add, with no
item being edited, and as update, with one), by `handleDelete` and by
`handleBulkDelete`, whatever the user answers to the confirmation. -/
theorem ids_nodup_preserved (s : State) (id : Nat) (confirmed : Bool)
    (h : (ids s.items).Nodup) :
    (ids (handleSave s).items).Nodup ∧
    (ids (handleDelete s id confirmed).items).Nodup ∧
    (ids (handleBulkDelete s confirmed).items).Nodup := by
  refine ⟨?_, ?_, ?_⟩
  · cases he : s.editingItem with
    | none =>
      rw [handleSave_items_add s he]
      simp only [ids, List.map_append, List.map_cons, List.map_nil]
      refine List.Nodup.append h (List.nodup_singleton _) ?_
      intro a ha hb
      obtain ⟨i, hi, rfl⟩ := List.mem_map.mp ha
      have hlt := newItem_id_gt s he i hi
      have : i.id = (newItem s).id := by simpa using hb
      omega
    | some e =>
      rw [ids_handleSave_update s e he]
      exact h
  · unfold handleDelete
    split
    · exact List.Nodup.sublist (List.Sublist.map _ (List.filter_sublist _)) h
    · exact h
  · unfold handleBulkDelete
    split
    · exact h
    · split
      · exact List.nodup_nil
      · exact h

theorem ids_nodup_preserved_witness :
    (ids initialState.items).Nodup ∧
    (ids (handleSave initialState).items).Nodup ∧
    (ids (handleDelete initialState 3 true).items).Nodup ∧
    (ids (handleBulkDelete initialState true).items).Nodup :=
  ⟨by decide, ids_nodup_preserved initialState 3 true (by decide)⟩

end Items

namespace Items

/-! ### Update -/

theorem handleSave_absent (s : State) (e : Item) (he : s.editingItem = some e)
    (habs : ∀ i ∈ s.items, i.id ≠ e.id) : handleSave s = handleClose s := by
  have hmap : s.items.map (fun item => if item.id = e.id then newItem s else item) = s.items := by
    conv_rhs => rw [← List.map_id s.items]
    apply List.map_congr_left
    intro a ha
    simp [habs a ha]
  simp only [handleSave, he, hmap]
  rw [← he]

/-- C6, as stated, fails on the code: in `staleEdit` the id being updated (9) is
the id of no item, and the call of `handleSave` does not end in `NotFound`; it
ends normally with the collection as it was. -/
theorem saveOutcome_staleEdit :
    (∀ i ∈ staleEdit.items, some i.id ≠ staleEdit.editingItem.map (fun e => e.id)) ∧
    saveOutcome staleEdit ≠ Except.error StoreError.NotFound ∧
    saveOutcome staleEdit = Except.ok (handleClose staleEdit) ∧
    (handleSave staleEdit).items = staleEdit.items := by
  have h : handleSave staleEdit = handleClose staleEdit :=
    handleSave_absent staleEdit _ rfl (by decide)
  refine ⟨by decide, ?_, ?_, ?_⟩
  · intro hc
    cases hc
  · rw [saveOutcome, h]
  · rw [h]
    rfl

/-- C6, amended: when no item of the collection has the id being updated,
`handleSave` does not fail; the call ends normally, the collection is left
as it was, and the only change of state is that the dialog is closed. -/
theorem handleSave_absent_id_noop (s : State) (e : Item) (he : s.editingItem = some e)
    (habs : ∀ i ∈ s.items, i.id ≠ e.id) :
    saveOutcome s = Except.ok (handleSave s) ∧
    (handleSave s).items = s.items ∧
    handleSave s = { s with dialogOpen := false, editingItem := none } := by
  refine ⟨rfl, ?_, ?_⟩
  · rw [handleSave_absent s e he habs]
    rfl
  · rw [handleSave_absent s e he habs]
    rfl

theorem handleSave_absent_id_noop_witness :
    (∀ i ∈ staleEdit.items, i.id ≠ 9) ∧ (handleSave staleEdit).items = initialItems :=
  ⟨by decide,
   (handleSave_absent_id_noop staleEdit ⟨9, "Gimbal", "Parts", JS.Number.finite 1, 3, "low"⟩
      rfl (by decide)).2.1⟩

/-- Position of an update: in a collection with pairwise distinct ids whose item
at position `k` has the id being updated, `handleSave` keeps the length, keeps
the item at every other position, and puts at position `k` the object `newItem`:
the same id, the name and category of the form, the price and stock read from
the form, and the status expression of `handleSave` on the stock text. -/
theorem handleSave_update_at (s : State) (e : Item) (k : Nat) (hk : k < s.items.length)
    (hnd : (ids s.items).Nodup) (he : s.editingItem = some e)
    (hid : (s.items.get ⟨k, hk⟩).id = e.id) :
    (handleSave s).items.length = s.items.length ∧
    (∀ j, j ≠ k → (handleSave s).items[j]? = s.items[j]?) ∧
    ∃ x, (handleSave s).items[k]? = some x ∧
      x.id = e.id ∧
      x.name = s.formData.name ∧
      x.category = s.formData.category ∧
      x.price = (JS.parseFloat s.formData.price).orZero ∧
      x.stock = JS.orZero (JS.parseInt s.formData.stock) ∧
      x.status =
        (if JS.strictEquals (JS.parseInt s.formData.stock) 0 then "out"
         else if JS.lessThan (JS.parseInt s.formData.stock) 10 then "low"
         else "active") := by
  have hitems := handleSave_items_update s e he
  refine ⟨by rw [hitems, List.length_map], ?_, ?_⟩
  · intro j hjk
    rw [hitems, List.getElem?_map]
    by_cases hj : j < s.items.length
    · rw [List.getElem?_eq_getElem hj]
      simp only [Option.map_some']
      have hne : (s.items[j]).id ≠ e.id := by
        intro hc
        have hk2 : k < (ids s.items).length := by simpa [ids] using hk
        have hj2 : j < (ids s.items).length := by simpa [ids] using hj
        have heq : (ids s.items)[j] = (ids s.items)[k] := by
          simp only [ids, List.getElem_map]
          rw [hc]
          exact hid.symm
        exact hjk ((List.Nodup.getElem_inj_iff hnd).mp heq)
      rw [if_neg hne]
    · rw [List.getElem?_eq_none (Nat.le_of_not_lt hj)]
      rfl
  · refine ⟨newItem s, ?_, newItem_id_update s e he, rfl, rfl, rfl, rfl, rfl⟩
    rw [hitems, List.getElem?_map, List.getElem?_eq_getElem hk]
    have hid2 : (s.items[k]).id = e.id := hid
    simp only [Option.map_some', hid2, if_true]

theorem handleSave_update_at_witness :
    (ids initialItems).Nodup ∧
    (handleSave { initialState with
        editingItem := some ⟨3, "Battery Pack", "Power", JS.Number.finite 1, 30, "low"⟩,
        formData := ⟨"Battery Pack", "Power", "89.99", "5"⟩ }).items.length = 5 :=
  ⟨by decide,
   (handleSave_update_at
      { initialState with
        editingItem := some ⟨3, "Battery Pack", "Power", JS.Number.finite 1, 30, "low"⟩,
        formData := ⟨"Battery Pack", "Power", "89.99", "5"⟩ }
      ⟨3, "Battery Pack", "Power", JS.Number.finite 1, 30, "low"⟩ 2 (by decide) (by decide) rfl
      (by decide)).1⟩

/-- C7, evaluated on the code where it fails: the sample data has pairwise
distinct ids and the item with id 3 at position 2.  Saving its edit with the
stock field emptied keeps the length, the other four positions and the id, name
and category at position 2, and stores there stock `0` with status `active`;
the status that goes with stock `0`, the one `handleSave` stores for the stock
text `0`, is `out`. -/
theorem handleSave_update_empty_stock :
    (ids initialItems).Nodup ∧
    initialItems[2]?.map (fun i => i.id) = some 3 ∧
    (handleSave (editing initialState 3 ⟨"Battery Pack", "Power", "89.99", ""⟩)).items.map
        (fun i => (i.id, i.stock, i.status))
      = [(1, 45, "active"), (2, 120, "active"), (3, 0, "active"), (4, 0, "out"),
          (5, 25, "active")] ∧
    (handleSave (editing initialState 3 ⟨"Battery Pack", "Power", "89.99", ""⟩)).items[2]?.map
        (fun i => (i.id, i.name, i.category, i.stock, i.status))
      = some (3, "Battery Pack", "Power", 0, "active") ∧
    (newItem (editing initialState 3 ⟨"Battery Pack", "Power", "89.99", "0"⟩)).status = "out" := by
  decide

/-! ### Remove -/

/-- C8: a confirmed `handleDelete` leaves exactly the items whose id differs from
the given id, in their original order (the result is the old collection with
those of that id filtered out, a sublist of it that keeps every other item with
its multiplicity); the rest of the state is untouched; the state is unchanged
when no item has that id; and the call ends normally. -/
theorem handleDelete_spec (s : State) (id : Nat) :
    (handleDelete s id true).items = s.items.filter (fun i => decide (i.id ≠ id)) ∧
    List.Sublist (handleDelete s id true).items s.items ∧
    (∀ x, x ∈ (handleDelete s id true).items ↔ x ∈ s.items ∧ x.id ≠ id) ∧
    (∀ x, x.id ≠ id → List.count x (handleDelete s id true).items = List.count x s.items) ∧
    handleDelete s id true = { s with items := (handleDelete s id true).items } ∧
    ((∀ x ∈ s.items, x.id ≠ id) → handleDelete s id true = s) ∧
    deleteOutcome s id true = Except.ok (handleDelete s id true) := by
  have hitems : (handleDelete s id true).items = s.items.filter (fun i => decide (i.id ≠ id)) := rfl
  refine ⟨hitems, ?_, ?_, ?_, rfl, ?_, rfl⟩
  · rw [hitems]
    exact List.filter_sublist _
  · intro x
    rw [hitems, List.mem_filter, decide_eq_true_eq]
  · intro x hx
    rw [hitems]
    exact List.count_filter (by simpa using hx)
  · intro habs
    have hf : s.items.filter (fun i => decide (i.id ≠ id)) = s.items :=
      List.filter_eq_self.mpr (fun a ha => by simpa using habs a ha)
    show ({ s with items := s.items.filter (fun i => decide (i.id ≠ id)) } : State) = s
    rw [hf]

/-- C9: removing the same id a second time changes nothing, whatever the answer
to the second confirmation: the state after the two calls is the state after
the first confirmed one. -/
theorem handleDelete_idempotent (s : State) (id : Nat) (confirmed : Bool) :
    handleDelete (handleDelete s id true) id confirmed = handleDelete s id true := by
  cases confirmed with
  | false => rfl
  | true =>
    simp [handleDelete, List.filter_filter]

/-! ### Search -/

theorem filteredItems_empty_query (s : State) :
    filteredItems { s with searchQuery := "" } = s.items := by
  unfold filteredItems
  apply List.filter_eq_self.mpr
  intro a _
  simp only [JS.includes_empty, Bool.or_self]

set_option maxRecDepth 8000 in
/-- C10: `filteredItems` is the collection filtered, in its own order, by the
condition that the lower-cased query is a contiguous part of the lower-cased
name or of the lower-cased category; it is a sublist of the collection, and a
sublist of the list obtained for the empty query.  The match does not see the
case of letters: lower-casing gives the same text for a text and for its
upper-cased or lower-cased ASCII form, so the result is the same for a query
and for that query in capitals; the query `ELEC` finds the two `Electronics`
rows of the sample data, and the query `café` finds a row named `CAFÉ`. -/
theorem filteredItems_spec (s : State) :
    filteredItems s = s.items.filter (fun item => decide
      ((JS.toLowerCase s.searchQuery).toList <:+: (JS.toLowerCase item.name).toList ∨
       (JS.toLowerCase s.searchQuery).toList <:+: (JS.toLowerCase item.category).toList)) ∧
    (∀ x, x ∈ filteredItems s ↔ x ∈ s.items ∧
      ((JS.toLowerCase s.searchQuery).toList <:+: (JS.toLowerCase x.name).toList ∨
       (JS.toLowerCase s.searchQuery).toList <:+: (JS.toLowerCase x.category).toList)) ∧
    List.Sublist (filteredItems s) s.items ∧
    List.Sublist (filteredItems s) (filteredItems { s with searchQuery := "" }) ∧
    (∀ t : String, JS.toLowerCase t.toUpper = JS.toLowerCase t ∧
      JS.toLowerCase t.toLower = JS.toLowerCase t) ∧
    (∀ q : String,
      filteredItems { s with searchQuery := q.toUpper } = filteredItems { s with searchQuery := q } ∧
      filteredItems { s with searchQuery := q.toLower }
        = filteredItems { s with searchQuery := q }) ∧
    ids (filteredItems { initialState with searchQuery := "ELEC" }) = [1, 4] ∧
    ids (filteredItems { initialState with searchQuery := "elec" }) = [1, 4] ∧
    ids (filteredItems { initialState with searchQuery := "Pack" }) = [3] ∧
    JS.toLowerCase "CAFÉ Σ" = "café σ" ∧
    ids (filteredItems { initialState with
          items := [⟨1, "CAFÉ", "Bar", JS.Number.finite 1, 12, "active"⟩],
          searchQuery := "café" }) = [1] := by
  have hpred : ∀ item : Item,
      (JS.includes (JS.toLowerCase item.name) (JS.toLowerCase s.searchQuery) ||
        JS.includes (JS.toLowerCase item.category) (JS.toLowerCase s.searchQuery)) = decide
      ((JS.toLowerCase s.searchQuery).toList <:+: (JS.toLowerCase item.name).toList ∨
       (JS.toLowerCase s.searchQuery).toList <:+: (JS.toLowerCase item.category).toList) := by
    intro item
    rw [Bool.eq_iff_iff, Bool.or_eq_true, JS.includes_iff, JS.includes_iff, decide_eq_true_eq]
  have heq : filteredItems s = s.items.filter (fun item => decide
      ((JS.toLowerCase s.searchQuery).toList <:+: (JS.toLowerCase item.name).toList ∨
       (JS.toLowerCase s.searchQuery).toList <:+: (JS.toLowerCase item.category).toList)) := by
    unfold filteredItems
    congr 1
    funext item
    exact hpred item
  refine ⟨heq, ?_, ?_, ?_, ?_, ?_, by decide, by decide, by decide, by decide, by decide⟩
  · intro x
    rw [heq, List.mem_filter, decide_eq_true_eq]
  · exact List.filter_sublist _
  · rw [filteredItems_empty_query]
    exact List.filter_sublist _
  · intro t
    exact ⟨JS.toLowerCase_toUpper t, JS.toLowerCase_toLower t⟩
  · intro q
    constructor
    · simp only [filteredItems, JS.toLowerCase_toUpper]
    · simp only [filteredItems, JS.toLowerCase_toLower]

end Items

namespace Items

/-! ### Empty query, malformed numbers, negative stock -/

/-- C11: with the empty query `filteredItems` is the whole collection, every
item in its place; so it is at the first render, where the query is empty and
the collection is the sample data. -/
theorem filteredItems_empty_all (s : State) :
    filteredItems { s with searchQuery := "" } = s.items ∧
    filteredItems initialState = initialItems :=
  ⟨filteredItems_empty_query s, filteredItems_empty_query initialState⟩

/-- C12: `handleSave` never rejects: every call ends normally; when the price
text does not parse (`parseFloat` gives `NaN`) the saved price is `0`, and when
the stock text does not parse (`parseInt` gives `NaN`) the saved stock is `0`.
The saved item is the one appended by an add, and the only new item of the
collection after any save. -/
theorem handleSave_coerces_malformed (s : State) :
    saveOutcome s = Except.ok (handleSave s) ∧
    (JS.parseFloat s.formData.price = JS.Number.nan →
      (newItem s).price = JS.Number.finite 0) ∧
    (JS.parseInt s.formData.stock = none → (newItem s).stock = 0) ∧
    (s.editingItem = none → (handleSave s).items = s.items ++ [newItem s]) ∧
    (∀ x ∈ (handleSave s).items, x ∈ s.items ∨ x = newItem s) := by
  refine ⟨rfl, ?_, ?_, handleSave_items_add s, handleSave_mem s⟩
  · intro h
    simp only [newItem, h, JS.Number.orZero]
  · intro h
    simp only [newItem, h, JS.orZero]

theorem handleSave_coerces_malformed_witness :
    JS.parseFloat (setFormData initialState ⟨"Gimbal", "Parts", "n/a", "many"⟩).formData.price
      = JS.Number.nan ∧
    JS.parseInt (setFormData initialState ⟨"Gimbal", "Parts", "n/a", "many"⟩).formData.stock
      = none ∧
    (newItem (setFormData initialState ⟨"Gimbal", "Parts", "n/a", "many"⟩)).price
      = JS.Number.finite 0 ∧
    (newItem (setFormData initialState ⟨"Gimbal", "Parts", "n/a", "many"⟩)).stock = 0 :=
  ⟨by decide, by decide,
   (handleSave_coerces_malformed
      (setFormData initialState ⟨"Gimbal", "Parts", "n/a", "many"⟩)).2.1 (by decide),
   (handleSave_coerces_malformed
      (setFormData initialState ⟨"Gimbal", "Parts", "n/a", "many"⟩)).2.2.1 (by decide)⟩

/-- C13, as stated, fails on the code: saving the stock text `-5` appends an item
whose stock is `-5`, so not every saved item has a non-negative stock. -/
theorem handleSave_negative_stock :
    ((handleSave (setFormData initialState ⟨"Gimbal", "Parts", "59.5", "-5"⟩)).items.getLast?.map
        (fun i => i.stock) = some (-5)) ∧
    ¬ (∀ x ∈ (handleSave (setFormData initialState ⟨"Gimbal", "Parts", "59.5", "-5"⟩)).items,
        0 ≤ x.stock) := by
  decide

/-- C13, amended: the stock of the item built by `handleSave` is the number that
`parseInt` reads from the stock text, or `0` when `parseInt` reads none; it is
non-negative exactly when `parseInt` does not read a negative number.  Every
item of the saved collection is an item of the old collection or this item. -/
theorem handleSave_stock_parsed (s : State) :
    (newItem s).stock = (JS.parseInt s.formData.stock).getD 0 ∧
    (0 ≤ (newItem s).stock ↔ ∀ n, JS.parseInt s.formData.stock = some n → 0 ≤ n) ∧
    (∀ x ∈ (handleSave s).items, x ∈ s.items ∨ x = newItem s) := by
  have hstock : (newItem s).stock = (JS.parseInt s.formData.stock).getD 0 := by
    simp only [newItem, JS.orZero]
    cases JS.parseInt s.formData.stock with
    | none => rfl
    | some n =>
      by_cases h0 : n = 0
      · simp [h0]
      · simp [h0]
  refine ⟨hstock, ?_, handleSave_mem s⟩
  rw [hstock]
  cases JS.parseInt s.formData.stock with
  | none => simp
  | some n => simp

end Items

namespace Items

/-! ### Runs of removes and adds -/

theorem handleDelete_editingItem (s : State) (id : Nat) (confirmed : Bool) :
    (handleDelete s id confirmed).editingItem = s.editingItem := by
  unfold handleDelete
  split <;> rfl

theorem applyOp_editingItem (s : State) (op : Op) (h : s.editingItem = none) :
    (applyOp s op).editingItem = none := by
  cases op with
  | add f => exact handleSave_editingItem _
  | remove id => exact (handleDelete_editingItem s id true).trans h

theorem run_editingItem (s : State) (ops : List Op) (h : s.editingItem = none) :
    (run s ops).editingItem = none := by
  induction ops generalizing s with
  | nil => exact h
  | cons op ops ih => exact ih (applyOp s op) (applyOp_editingItem s op h)

theorem run_append_add (s : State) (ops : List Op) (f : FormData) :
    run s (ops ++ [Op.add f]) = handleSave (setFormData (run s ops) f) := by
  simp [run, List.foldl_append, applyOp]

/-- C14, as stated, fails on the code: from the sample data, after the item with
id 5 is removed the collection still holds four items, and the next add assigns
id 5 again, the id of the removed item. -/
theorem run_remove_add_reuses_id :
    5 ∈ removedIds initialState [Op.remove 5] ∧
    ids (run initialState [Op.remove 5]).items = [1, 2, 3, 4] ∧
    (newItem (setFormData (run initialState [Op.remove 5]) ⟨"Gimbal", "Parts", "59.5", "7"⟩)).id
      = 5 ∧
    ids (run initialState [Op.remove 5, Op.add ⟨"Gimbal", "Parts", "59.5", "7"⟩]).items
      = [1, 2, 3, 4, 5] := by
  decide

/-- C14, amended: after any run of removes and adds from a state with no item
being edited, an add appends one item whose id is greater than the id of every
item in the collection at that time; so it assigns an id that a removed item
held only if every item left in the collection has a smaller id; and when the
collection is empty at that time the assigned id is 1. -/
theorem run_add_id_above_current (s : State) (ops : List Op) (f : FormData)
    (h : s.editingItem = none) :
    (run s (ops ++ [Op.add f])).items
      = (run s ops).items ++ [newItem (setFormData (run s ops) f)] ∧
    (∀ i ∈ (run s ops).items, i.id < (newItem (setFormData (run s ops) f)).id) ∧
    (∀ r ∈ removedIds s ops, (newItem (setFormData (run s ops) f)).id = r →
      ∀ i ∈ (run s ops).items, i.id < r) ∧
    ((run s ops).items = [] → (newItem (setFormData (run s ops) f)).id = 1) := by
  have he : (setFormData (run s ops) f).editingItem = none := run_editingItem s ops h
  have hgt : ∀ i ∈ (run s ops).items, i.id < (newItem (setFormData (run s ops) f)).id :=
    fun i hi => newItem_id_gt _ he i hi
  refine ⟨?_, hgt, ?_, ?_⟩
  · rw [run_append_add, handleSave_items_add _ he]
    rfl
  · intro r _ hr i hi
    rw [← hr]
    exact hgt i hi
  · intro hempty
    rw [newItem_id_add _ he]
    have : (setFormData (run s ops) f).items = [] := hempty
    rw [this]
    rfl

theorem run_add_id_above_current_witness :
    initialState.editingItem = none ∧
    (∀ i ∈ (run initialState [Op.remove 5, Op.remove 2]).items,
      i.id < (newItem (setFormData (run initialState [Op.remove 5, Op.remove 2])
        ⟨"Gimbal", "Parts", "59.5", "7"⟩)).id) :=
  ⟨rfl,
   (run_add_id_above_current initialState [Op.remove 5, Op.remove 2]
      ⟨"Gimbal", "Parts", "59.5", "7"⟩ rfl).2.1⟩

/-! ### The sample data -/

/-- C15: from the sample data, saving the edit of the item with id 3 with the
stock text `5` (whatever the other three fields of the form hold) leaves one
item with id 3, with stock 5 and status `low`, and the count of items with
status `low` is then 1. -/
theorem update_item3_stock5 (name category price : String) :
    ((handleSave (editing initialState 3 ⟨name, category, price, "5"⟩)).items.filter
        (fun i => i.id == 3)).map (fun i => (i.stock, i.status)) = [(5, "low")] ∧
    countByStatus (handleSave (editing initialState 3 ⟨name, category, price, "5"⟩)) "low" = 1 := by
  constructor <;> rfl

/-- C16, evaluated on the code where it fails: the sample data lists the stocks
45, 120, 30, 0, 25 with the statuses `active`, `active`, `low`, `out`, `active`;
the third item has stock 30 and status `low`, where the thresholds give `active`,
which is also what `handleSave` stores for the stock text `30`. -/
theorem initialItems_stock_status :
    initialItems.map (fun i => (i.stock, i.status))
      = [(45, "active"), (120, "active"), (30, "low"), (0, "out"), (25, "active")] ∧
    (newItem (setFormData initialState ⟨"Battery Pack", "Power", "89.99", "30"⟩)).status
      = "active" := by
  decide

end Items

namespace ThemeMode

/-! ### Theme mode: effective mode and the toggle -/

theorem indexOf_modes (p : String) :
    JS.indexOf modes p =
      if p = "system" then 0 else if p = "light" then 1 else if p = "dark" then 2 else -1 := by
  by_cases h1 : p = "system"
  · subst h1; rfl
  · by_cases h2 : p = "light"
    · subst h2; rfl
    · by_cases h3 : p = "dark"
      · subst h3; rfl
      · simp [JS.indexOf, modes, h1, h2, h3]

theorem toggleMode_eq (st : State) :
    toggleMode st = setMode st
      (if st.modePreference = "system" then "light"
       else if st.modePreference = "light" then "dark" else "system") := by
  unfold toggleMode
  simp only [indexOf_modes]
  by_cases h1 : st.modePreference = "system"
  · simp only [h1, if_true]; rfl
  · by_cases h2 : st.modePreference = "light"
    · simp only [h2, if_true]; rfl
    · by_cases h3 : st.modePreference = "dark"
      · simp only [h3, if_true]; rfl
      · simp only [h1, h2, h3, if_false]; rfl

theorem toggleMode_system (system : String) (stored : Option String) :
    toggleMode ⟨"system", system, stored⟩ = ⟨"light", system, some "light"⟩ := by
  rw [toggleMode_eq]
  rfl

theorem toggleMode_light (system : String) (stored : Option String) :
    toggleMode ⟨"light", system, stored⟩ = ⟨"dark", system, some "dark"⟩ := by
  rw [toggleMode_eq]
  rfl

theorem toggleMode_dark (system : String) (stored : Option String) :
    toggleMode ⟨"dark", system, stored⟩ = ⟨"system", system, some "system"⟩ := by
  rw [toggleMode_eq]
  rfl

theorem toggleMode_modePreference_mem (st : State) : (toggleMode st).modePreference ∈ modes := by
  rw [toggleMode_eq]
  simp only [setMode, modes]
  split
  · simp
  · split <;> simp

theorem systemMode_initialState (env : Env) (stored : Option String) :
    (initialState env stored).systemMode = "light" ∨
      (initialState env stored).systemMode = "dark" := by
  unfold initialState getSystemPreference
  rcases env with ⟨_ | b⟩
  · exact Or.inr rfl
  · cases b
    · exact Or.inl rfl
    · exact Or.inr rfl

theorem systemMode_step (st : State) (e : Event)
    (h : st.systemMode = "light" ∨ st.systemMode = "dark") :
    (step st e).systemMode = "light" ∨ (step st e).systemMode = "dark" := by
  cases e with
  | loadStored => exact h
  | listen env =>
    rcases env with ⟨_ | b⟩
    · exact h
    · cases b
      · exact Or.inl rfl
      · exact Or.inr rfl
  | setMode v => exact h
  | toggleMode => exact h
  | change b =>
    cases b
    · exact Or.inl rfl
    · exact Or.inr rfl

theorem systemMode_run (st : State) (es : List Event)
    (h : st.systemMode = "light" ∨ st.systemMode = "dark") :
    (run st es).systemMode = "light" ∨ (run st es).systemMode = "dark" := by
  induction es generalizing st with
  | nil => exact h
  | cons e es ih => exact ih (step st e) (systemMode_step st e h)

theorem getStoredPreference_mem (stored : Option String) :
    getStoredPreference stored ∈ modes := by
  unfold getStoredPreference
  split
  · rename_i h
    cases stored with
    | none => simp [JS.arrayIncludes] at h
    | some v =>
      have hv : v = "light" ∨ v = "dark" ∨ v = "system" := by
        simpa [JS.arrayIncludes] using h
      simp only [Option.getD_some, modes, List.mem_cons, List.mem_singleton]
      rcases hv with hv | hv | hv
      · exact Or.inr (Or.inl hv)
      · exact Or.inr (Or.inr (Or.inl hv))
      · exact Or.inl hv
  · simp [modes]

theorem preference_mem_step (st : State) (e : Event) (h : st.modePreference ∈ modes)
    (he : e.usesOption = true) : (step st e).modePreference ∈ modes := by
  cases e with
  | loadStored => exact getStoredPreference_mem _
  | listen env =>
    show (systemListenerEffect env st).modePreference ∈ modes
    unfold systemListenerEffect
    split <;> exact h
  | setMode v =>
    simpa [Event.usesOption] using he
  | toggleMode => exact toggleMode_modePreference_mem st
  | change b => exact h

theorem preference_mem_run (st : State) (es : List Event) (h : st.modePreference ∈ modes)
    (hes : ∀ e ∈ es, e.usesOption = true) : (run st es).modePreference ∈ modes := by
  induction es generalizing st with
  | nil => exact h
  | cons e es ih =>
    exact ih (step st e)
      (preference_mem_step st e h (hes e (List.mem_cons_self e es)))
      (fun e2 h2 => hes e2 (List.mem_cons_of_mem e h2))

end ThemeMode

namespace ThemeMode

/-- C17: the effective mode `actualMode` is the system mode when the preference
is `system`, and the preference itself otherwise, for every preference, system
mode and stored value. -/
theorem actualMode_spec (preference system : String) (stored : Option String) :
    (preference = "system" → actualMode ⟨preference, system, stored⟩ = system) ∧
    (preference ≠ "system" → actualMode ⟨preference, system, stored⟩ = preference) := by
  constructor
  · intro h
    simp [actualMode, h]
  · intro h
    simp [actualMode, h]

theorem actualMode_spec_witness :
    actualMode ⟨"system", "light", some "system"⟩ = "light" ∧
    actualMode ⟨"dark", "light", some "dark"⟩ = "dark" :=
  ⟨(actualMode_spec "system" "light" (some "system")).1 rfl,
   (actualMode_spec "dark" "light" (some "dark")).2 (by decide)⟩

/-- C18: in every state reached from the first render by any sequence of the
mount effects, `setMode`, `toggleMode` and system changes, where `setMode` is
called with one of the three theme mode options as `toggleMode`, its only
caller, does, the effective mode `actualMode` is `light` or `dark`, and it is
not `system`. -/
theorem actualMode_light_or_dark (env : Env) (stored : Option String) (es : List Event)
    (hes : ∀ e ∈ es, e.usesOption = true) :
    (actualMode (run (initialState env stored) es) = "light" ∨
      actualMode (run (initialState env stored) es) = "dark") ∧
    actualMode (run (initialState env stored) es) ≠ "system" := by
  have hsys := systemMode_run (initialState env stored) es (systemMode_initialState env stored)
  have hpref := preference_mem_run (initialState env stored) es (by simp [initialState, modes]) hes
  have hmain : actualMode (run (initialState env stored) es) = "light" ∨
      actualMode (run (initialState env stored) es) = "dark" := by
    unfold actualMode
    split
    · exact hsys
    · rename_i hne
      simp only [modes, List.mem_cons, List.mem_singleton] at hpref
      rcases hpref with h | h | h
      · exact absurd h hne
      · exact Or.inl h
      · rcases h with h | h
        · exact Or.inr h
        · exact absurd h (List.not_mem_nil _)
  refine ⟨hmain, ?_⟩
  rcases hmain with h | h
  · rw [h]; decide
  · rw [h]; decide

theorem actualMode_light_or_dark_witness :
    (∀ e ∈ [Event.loadStored, Event.listen ⟨some true⟩, Event.toggleMode, Event.setMode "system",
        Event.change false], e.usesOption = true) ∧
    actualMode (run (initialState ⟨some true⟩ (some "dark"))
      [Event.loadStored, Event.listen ⟨some true⟩, Event.toggleMode, Event.setMode "system",
        Event.change false]) = "light" :=
  ⟨by decide,
   ((actualMode_light_or_dark ⟨some true⟩ (some "dark")
      [Event.loadStored, Event.listen ⟨some true⟩, Event.toggleMode, Event.setMode "system",
        Event.change false] (by decide)).1).resolve_right (by decide)⟩

/-- C19: `toggleMode` takes the preference `system` to `light`, `light` to `dark`
and `dark` to `system`, and writes the new preference to the `themeMode` entry
exactly as `setMode` does; the preference and the entry it leaves are the same
whatever the system mode is, and the system mode is not touched. -/
theorem toggleMode_cycle (st : State) :
    (st.modePreference = "system" → toggleMode st = setMode st "light") ∧
    (st.modePreference = "light" → toggleMode st = setMode st "dark") ∧
    (st.modePreference = "dark" → toggleMode st = setMode st "system") ∧
    (∀ newMode, (setMode st newMode).modePreference = newMode ∧
      (setMode st newMode).themeMode = some newMode) ∧
    (toggleMode st).themeMode = some (toggleMode st).modePreference ∧
    (toggleMode st).systemMode = st.systemMode ∧
    (∀ system : String,
      (toggleMode { st with systemMode := system }).modePreference
        = (toggleMode st).modePreference ∧
      (toggleMode { st with systemMode := system }).themeMode = (toggleMode st).themeMode) := by
  refine ⟨?_, ?_, ?_, fun _ => ⟨rfl, rfl⟩, ?_, ?_, ?_⟩
  · intro h
    rw [toggleMode_eq, if_pos h]
  · intro h
    rw [toggleMode_eq, h]
    rfl
  · intro h
    rw [toggleMode_eq, h]
    rfl
  · rw [toggleMode_eq]
    rfl
  · rw [toggleMode_eq]
    rfl
  · intro system
    rw [toggleMode_eq, toggleMode_eq]
    exact ⟨rfl, rfl⟩

theorem toggleMode_cycle_witness :
    toggleMode ⟨"system", "dark", none⟩ = ⟨"light", "dark", some "light"⟩ ∧
    toggleMode ⟨"light", "dark", some "light"⟩ = ⟨"dark", "dark", some "dark"⟩ ∧
    toggleMode ⟨"dark", "light", some "dark"⟩ = ⟨"system", "light", some "system"⟩ :=
  ⟨(toggleMode_cycle ⟨"system", "dark", none⟩).1 rfl,
   (toggleMode_cycle ⟨"light", "dark", some "light"⟩).2.1 rfl,
   (toggleMode_cycle ⟨"dark", "light", some "dark"⟩).2.2.1 rfl⟩

/-- C20: from a preference among `system`, `light`, `dark`, three calls of
`toggleMode` bring the preference back to where it started, and one call or
two calls do not. -/
theorem toggleMode_period_three (st : State) (h : st.modePreference ∈ modes) :
    (toggleMode (toggleMode (toggleMode st))).modePreference = st.modePreference ∧
    (toggleMode st).modePreference ≠ st.modePreference ∧
    (toggleMode (toggleMode st)).modePreference ≠ st.modePreference := by
  simp only [modes, List.mem_cons, List.mem_singleton] at h
  have h3 : st.modePreference = "system" ∨ st.modePreference = "light" ∨
      st.modePreference = "dark" := by
    rcases h with h | h | h
    · exact Or.inl h
    · exact Or.inr (Or.inl h)
    · rcases h with h | h
      · exact Or.inr (Or.inr h)
      · exact absurd h (List.not_mem_nil _)
  obtain ⟨p, sys, stored⟩ := st
  simp only at h3
  rcases h3 with rfl | rfl | rfl
  · rw [toggleMode_system, toggleMode_light, toggleMode_dark]
    refine ⟨rfl, ?_, ?_⟩
    · show "light" ≠ "system"
      decide
    · show "dark" ≠ "system"
      decide
  · rw [toggleMode_light, toggleMode_dark, toggleMode_system]
    refine ⟨rfl, ?_, ?_⟩
    · show "dark" ≠ "light"
      decide
    · show "system" ≠ "light"
      decide
  · rw [toggleMode_dark, toggleMode_system, toggleMode_light]
    refine ⟨rfl, ?_, ?_⟩
    · show "system" ≠ "dark"
      decide
    · show "light" ≠ "dark"
      decide

theorem toggleMode_period_three_witness :
    "light" ∈ modes ∧
    (toggleMode (toggleMode (toggleMode ⟨"light", "dark", none⟩))).modePreference = "light" ∧
    (toggleMode ⟨"light", "dark", none⟩).modePreference ≠ "light" ∧
    (toggleMode (toggleMode ⟨"light", "dark", none⟩)).modePreference ≠ "light" :=
  ⟨by decide, toggleMode_period_three ⟨"light", "dark", none⟩ (by decide)⟩

end ThemeMode

namespace ThemeMode

/-! ### Theme mode: storage, explicit choices and system changes -/

theorem getStoredPreference_mem_eq (v : String) (h : v ∈ ["light", "dark", "system"]) :
    getStoredPreference (some v) = v := by
  have hc : JS.arrayIncludes ["light", "dark", "system"] (some v) = true := by
    simpa [JS.arrayIncludes] using h
  simp only [getStoredPreference, hc, if_true, Option.getD_some]

theorem actualMode_setMode (st : State) (newMode : String) (h : newMode ≠ "system") :
    actualMode (setMode st newMode) = newMode := by
  simp [actualMode, setMode, h]

/-- C21: `getStoredPreference` returns the stored value when it is `light`, `dark`
or `system`, and `system` for every other stored value and when nothing is
stored. -/
theorem getStoredPreference_spec (v : String) :
    (v ∈ ["light", "dark", "system"] → getStoredPreference (some v) = v) ∧
    (v ∉ ["light", "dark", "system"] → getStoredPreference (some v) = "system") ∧
    getStoredPreference none = "system" := by
  refine ⟨?_, ?_, rfl⟩
  · intro h
    have hc : JS.arrayIncludes ["light", "dark", "system"] (some v) = true := by
      simpa [JS.arrayIncludes] using h
    simp only [getStoredPreference, hc, if_true, Option.getD_some]
  · intro h
    have hc : JS.arrayIncludes ["light", "dark", "system"] (some v) = false := by
      simpa [JS.arrayIncludes] using h
    simp [getStoredPreference, hc]

theorem getStoredPreference_spec_witness :
    getStoredPreference (some "dark") = "dark" ∧
    getStoredPreference (some "blue") = "system" :=
  ⟨(getStoredPreference_spec "dark").1 (by decide),
   (getStoredPreference_spec "blue").2.1 (by decide)⟩

/-- C22, evaluated on the code where it fails: `setMode` called with `blue`, which
is none of the three options, does not end in `InvalidPreference`; it ends
normally with `blue` as the preference, as the effective mode and in the
`themeMode` entry, a value that `getStoredPreference` refuses: it reads
`system` back from that entry. -/
theorem setModeOutcome_other_value :
    "blue" ∉ modes ∧
    setModeOutcome ⟨"system", "light", none⟩ "blue"
      ≠ Except.error PreferenceError.InvalidPreference ∧
    setModeOutcome ⟨"system", "light", none⟩ "blue"
      = Except.ok ⟨"blue", "light", some "blue"⟩ ∧
    (setMode ⟨"system", "light", none⟩ "blue").modePreference = "blue" ∧
    actualMode (setMode ⟨"system", "light", none⟩ "blue") = "blue" ∧
    getStoredPreference (setMode ⟨"system", "light", none⟩ "blue").themeMode = "system" := by
  refine ⟨by decide, ?_, rfl, rfl, by decide, by decide⟩
  intro hc
  cases hc

/-- C23: for each of the three options `v` and whatever was stored before, after
`setMode(v)` the preference is `v`, the `themeMode` entry holds `v`, and
`getStoredPreference` reads `v` back from it; so does the mount effect of a
later start of the provider. -/
theorem setMode_round_trip (st : State) (v : String) (env : Env) (h : v ∈ modes) :
    (setMode st v).modePreference = v ∧
    (setMode st v).themeMode = some v ∧
    getStoredPreference (setMode st v).themeMode = v ∧
    (loadStoredEffect (initialState env (setMode st v).themeMode)).modePreference = v := by
  have hv : v ∈ ["light", "dark", "system"] := by
    simp only [modes, List.mem_cons, List.mem_singleton] at h
    simp only [List.mem_cons, List.mem_singleton]
    rcases h with h | h | h
    · exact Or.inr (Or.inr (Or.inl h))
    · exact Or.inl h
    · rcases h with h | h
      · exact Or.inr (Or.inl h)
      · exact absurd h (List.not_mem_nil _)
  have hget : getStoredPreference (some v) = v := (getStoredPreference_mem_eq v hv)
  exact ⟨rfl, rfl, hget, hget⟩

theorem setMode_round_trip_witness :
    "light" ∈ modes ∧
    getStoredPreference (setMode ⟨"dark", "dark", some "dark"⟩ "light").themeMode = "light" :=
  ⟨by decide,
   (setMode_round_trip ⟨"dark", "dark", some "dark"⟩ "light" ⟨none⟩ (by decide)).2.2.1⟩

/-- C24: after `setMode('dark')` the effective mode is `dark` and after
`setMode('light')` it is `light`, for every prior state; it is the same for any
two system modes, and a later system change does not alter it. -/
theorem actualMode_explicit_choice (st : State) :
    actualMode (setMode st "dark") = "dark" ∧
    actualMode (setMode st "light") = "light" ∧
    (∀ system1 system2 : String,
      actualMode (setMode { st with systemMode := system1 } "dark")
        = actualMode (setMode { st with systemMode := system2 } "dark") ∧
      actualMode (setMode { st with systemMode := system1 } "light")
        = actualMode (setMode { st with systemMode := system2 } "light")) ∧
    (∀ isDark : Bool,
      actualMode (handleChange (setMode st "dark") isDark) = "dark" ∧
      actualMode (handleChange (setMode st "light") isDark) = "light") := by
  have hd : ∀ s : State, actualMode (setMode s "dark") = "dark" :=
    fun s => actualMode_setMode s "dark" (by decide)
  have hl : ∀ s : State, actualMode (setMode s "light") = "light" :=
    fun s => actualMode_setMode s "light" (by decide)
  refine ⟨hd st, hl st, ?_, ?_⟩
  · intro system1 system2
    rw [hd, hd, hl, hl]
    exact ⟨rfl, rfl⟩
  · intro isDark
    constructor
    · show (if "dark" = "system" then _ else "dark") = "dark"
      rw [if_neg (by decide)]
    · show (if "light" = "system" then _ else "light") = "light"
      rw [if_neg (by decide)]

/-- C25: while the preference is `system`, a system change makes the effective
mode the new system mode (`dark` when the query matches, `light` otherwise)
with no other event; the same holds right after `setMode('system')`. -/
theorem actualMode_follows_system (st : State) (isDark : Bool)
    (h : st.modePreference = "system") :
    actualMode st = st.systemMode ∧
    actualMode (handleChange st isDark) = (if isDark then "dark" else "light") ∧
    (∀ prior : State,
      actualMode (handleChange (setMode prior "system") isDark)
        = (if isDark then "dark" else "light")) := by
  refine ⟨?_, ?_, ?_⟩
  · simp [actualMode, h]
  · simp [actualMode, handleChange, h]
  · intro prior
    simp [actualMode, handleChange, setMode]

theorem actualMode_follows_system_witness :
    actualMode ⟨"system", "light", none⟩ = "light" ∧
    actualMode (handleChange ⟨"system", "light", none⟩ true) = "dark" ∧
    actualMode (handleChange (setMode ⟨"dark", "dark", some "dark"⟩ "system") false) = "light" :=
  ⟨(actualMode_follows_system ⟨"system", "light", none⟩ true rfl).1,
   (actualMode_follows_system ⟨"system", "light", none⟩ true rfl).2.1,
   (actualMode_follows_system ⟨"system", "light", none⟩ false rfl).2.2
     ⟨"dark", "dark", some "dark"⟩⟩

/-- C26: while the preference is `light` or `dark`, a system change sets the system
mode to the new value and leaves the effective mode, the preference and the
`themeMode` entry as they were. -/
theorem handleChange_frame (st : State) (isDark : Bool)
    (h : st.modePreference = "light" ∨ st.modePreference = "dark") :
    (handleChange st isDark).systemMode = (if isDark then "dark" else "light") ∧
    actualMode (handleChange st isDark) = actualMode st ∧
    (handleChange st isDark).modePreference = st.modePreference ∧
    (handleChange st isDark).themeMode = st.themeMode := by
  refine ⟨rfl, ?_, rfl, rfl⟩
  have hne : st.modePreference ≠ "system" := by
    rcases h with h | h
    · rw [h]; decide
    · rw [h]; decide
  simp [actualMode, handleChange, hne]

theorem handleChange_frame_witness :
    (handleChange ⟨"light", "light", some "light"⟩ true).systemMode = "dark" ∧
    actualMode (handleChange ⟨"light", "light", some "light"⟩ true)
      = actualMode ⟨"light", "light", some "light"⟩ :=
  ⟨(handleChange_frame ⟨"light", "light", some "light"⟩ true (Or.inl rfl)).1,
   (handleChange_frame ⟨"light", "light", some "light"⟩ true (Or.inl rfl)).2.1⟩

/-- C28: whatever the current preference is, the preference that `toggleMode` sets
is one of `system`, `light`, `dark`; when the current value is none of the three,
`indexOf` gives `-1` and the preference set, also written to the `themeMode`
entry, is `system`. -/
theorem toggleMode_valid (st : State) :
    (toggleMode st).modePreference ∈ modes ∧
    (st.modePreference ∉ modes →
      JS.indexOf modes st.modePreference = -1 ∧
      (toggleMode st).modePreference = "system" ∧
      (toggleMode st).themeMode = some "system") := by
  refine ⟨toggleMode_modePreference_mem st, ?_⟩
  intro h
  simp only [modes, List.mem_cons, List.mem_singleton, List.not_mem_nil, or_false,
    not_or] at h
  obtain ⟨h1, h2, h3⟩ := h
  refine ⟨?_, ?_, ?_⟩
  · rw [indexOf_modes]
    simp [h1, h2, h3]
  · rw [toggleMode_eq]
    simp [setMode, h1, h2]
  · rw [toggleMode_eq]
    simp [setMode, h1, h2]

theorem toggleMode_valid_witness :
    "blue" ∉ modes ∧ (toggleMode ⟨"blue", "dark", some "blue"⟩).modePreference = "system" :=
  ⟨by decide, ((toggleMode_valid ⟨"blue", "dark", some "blue"⟩).2 (by decide)).2.1⟩

end ThemeMode

namespace Items

/-! ### Edit and save without a change -/

/-- C27, evaluated on the code where it fails: in `bulkStock` the ids are pairwise
distinct and the last item has stock `10^21`, price `2.5` and status `active`,
as the thresholds give.  Opening it puts the stock text `1e+21` in the form, and
saving without a change stores stock `1` with status `low`: the collection is
not what it was. -/
theorem handleSave_handleOpen_large_stock :
    (ids bulkStock.items).Nodup ∧
    bulkStock.items.getLast?.map (fun i => (i.id, i.stock, i.status))
      = some (6, 10 ^ 21, "active") ∧
    bulkStock.items.getLast?.map (fun i => i.price) = some (JS.Number.finite (5 / 2)) ∧
    (handleOpen bulkStock bulkStock.items.getLast?).formData.stock = "1e+21" ∧
    (handleSave (handleOpen bulkStock bulkStock.items.getLast?)).items.getLast?.map
        (fun i => (i.id, i.stock, i.status)) = some (6, 1, "low") ∧
    (handleSave (handleOpen bulkStock bulkStock.items.getLast?)).items ≠ bulkStock.items := by
  refine ⟨by decide, by decide, by with_unfolding_all decide, by decide, by decide, ?_⟩
  intro h
  have hs : (handleSave (handleOpen bulkStock bulkStock.items.getLast?)).items.map
      (fun i => i.stock) = bulkStock.items.map (fun i => i.stock) := by rw [h]
  revert hs
  decide

end Items

namespace Login

/-! ### Carousel -/

theorem carouselSlides_length : carouselSlides.length = 4 := rfl

theorem slideIndex_eq_nat (st : State) : ∃ k : Nat, k < 4 ∧ slideIndex st = (k : Int) := by
  obtain ⟨page, direction, isHovered⟩ := st
  simp only [slideIndex, carouselSlides_length, JS.rem, JS.abs]
  cases page with
  | ofNat n =>
    refine ⟨n % 4, Nat.mod_lt n (by decide), ?_⟩
    have h : Int.tmod (Int.ofNat n) ((4 : Nat) : Int) = ((n % 4 : Nat) : Int) := rfl
    rw [h]
    have h0 : ¬ (((n % 4 : Nat) : Int) < 0) := by omega
    rw [if_neg h0]
  | negSucc n =>
    refine ⟨(n + 1) % 4, Nat.mod_lt (n + 1) (by decide), ?_⟩
    have h : Int.tmod (Int.negSucc n) ((4 : Nat) : Int) = -(((n + 1) % 4 : Nat) : Int) := rfl
    rw [h]
    split
    · omega
    · omega

/-- C29: for every integer `page`, whatever `direction` and `isHovered` are,
`slideIndex`, the absolute value of the truncating remainder of `page` by 4, is
one of 0, 1, 2, 3, and `carouselSlides[slideIndex]` is one of the four slides;
the previous arrow takes `page` to `page - 1`, below zero from the first render,
and every state reached by timer ticks, dots and arrows shows a slide. -/
theorem slideIndex_range (st : State) (es : List Event) :
    0 ≤ slideIndex st ∧ slideIndex st ≤ 3 ∧
    (∃ s, slide st = some s ∧ s ∈ carouselSlides) ∧
    (step st Event.previous).page = st.page - 1 ∧
    (run initialState [Event.previous]).page = -1 ∧
    (slide (run initialState [Event.previous])).map (fun s => s.title) = some "Beautiful UI" ∧
    (slide (run st es)).isSome = true := by
  have hslide : ∀ x : State, ∃ s, slide x = some s ∧ s ∈ carouselSlides := by
    intro x
    obtain ⟨k, hk, hx⟩ := slideIndex_eq_nat x
    have hlen : k < carouselSlides.length := by rw [carouselSlides_length]; exact hk
    refine ⟨carouselSlides[k], ?_, List.getElem_mem _⟩
    unfold slide
    rw [hx, if_pos (Int.ofNat_nonneg k), Int.toNat_ofNat, List.getElem?_eq_getElem hlen]
  obtain ⟨k, hk, hst⟩ := slideIndex_eq_nat st
  refine ⟨by omega, by omega, hslide st, rfl, by decide, by decide, ?_⟩
  obtain ⟨s, hs, _⟩ := hslide (run st es)
  rw [hs]
  rfl

end Login
